import Mathlib

/-!
Shallow embedding of the Safety & Decision Core of the `hope` repository
(`src/hope/services/safety`, `src/hope/services/decision`,
`src/hope/services/llm/gemini_activation_gate.py` and the domain models they
use), together with proofs settling the specification claims about it.

Strings are modelled as `List Char`; Python floats are modelled as exact
rationals (`ℚ`); the `re` regular expressions used by the safety validator and
crisis detector are modelled by a small executable regular-expression engine
(`Hope.Regex`) whose constructs cover exactly what those patterns use
(case-insensitive literals, `\s`, `\d`, `\b`, alternation, `?`, `+`, `*`),
with Python's leftmost / first-alternative / greedy match preference.
Mutable per-session state (error counters, the previous-risk-level cache,
the event log) is passed explicitly; timestamps, UUIDs and log calls are
omitted as they carry no decision-relevant information.
-/

set_option maxRecDepth 100000

-- Batteries marks core `Rat` arithmetic `@[irreducible]` for elaboration
-- performance; re-allow unfolding so that `decide` can evaluate the embedded
-- rational arithmetic (the kernel ignores reducibility attributes either way).
attribute [local semireducible] Rat.add Rat.mul Rat.sub Rat.inv Rat.ofScientific

namespace Hope

/-- Strings of the embedded program. -/
abbrev Str := List Char

/-- ASCII whitespace, as Python's `\s` and `str.strip` treat it. -/
def isSpaceChar (c : Char) : Bool :=
  c == ' ' || c == '\t' || c == '\n' || c == '\r' || c == Char.ofNat 11 || c == Char.ofNat 12

/-- Python's `\d` (ASCII). -/
def isDigitChar (c : Char) : Bool :=
  '0' ≤ c && c ≤ '9'

/-- Python's `\w` (ASCII), used for the `\b` word boundary. -/
def isWordChar (c : Char) : Bool :=
  ('a' ≤ c && c ≤ 'z') || ('A' ≤ c && c ≤ 'Z') || isDigitChar c || c == '_'

/-- A single-character class of the regular expressions of the source:
whitespace `\s`, digit `\d`, a case-insensitive literal character (all source
patterns carry `re.IGNORECASE`), or an exact character. -/
inductive CharClass
  | ws
  | digit
  | dot
  | ci (c : Char)
  | ex (c : Char)
deriving DecidableEq

/-- Whether a character belongs to a class.  For `ci c`, `c` is stored in
lowercase and compared against the lowercased input; `dot` is `.` (anything
but a newline). -/
def CharClass.test : CharClass → Char → Bool
  | .ws, c => isSpaceChar c
  | .digit, c => isDigitChar c
  | .dot, c => !(c == '\n')
  | .ci a, c => c.toLower == a
  | .ex a, c => c == a

/-- The fragment of `re` syntax the source's safety patterns use. -/
inductive Regex
  | eps
  | cls (p : CharClass)
  | alt (a b : Regex)
  | cat (a b : Regex)
  | opt (r : Regex)
  | plusCls (p : CharClass)
  | starCls (p : CharClass)
  | bnd
deriving DecidableEq

/-- Greedy Kleene star over a character class, in continuation-passing style.
The continuation receives the character preceding the remaining input (for
`\b`) and the remaining input.  The longest extension is tried first, matching
Python's greedy quantifiers. -/
def starRun (p : CharClass) : Option Char → List Char → (Option Char → List Char → Bool) → Bool
  | prev, [], k => k prev []
  | prev, a :: s, k =>
    if p.test a then (starRun p (some a) s k || k prev (a :: s)) else k prev (a :: s)

/-- Python's `\b`: the previous and next characters disagree on word-ness
(start and end of input count as non-word). -/
def atBoundary (prev : Option Char) (s : List Char) : Bool :=
  (match prev with | some c => isWordChar c | none => false)
    != (match s with | a :: _ => isWordChar a | [] => false)

/-- The matcher: `r.run prev s k` is true when some prefix of `s` matches `r`
and the continuation `k` accepts the rest.  `prev` is the character just
before `s` (for `\b`).  Alternatives are tried in source order and quantifiers
greedily, as Python's backtracking engine does. -/
def Regex.run : Regex → Option Char → List Char → (Option Char → List Char → Bool) → Bool
  | .eps, prev, s, k => k prev s
  | .cls _, _, [], _ => false
  | .cls p, _, a :: s, k => p.test a && k (some a) s
  | .alt r1 r2, prev, s, k => r1.run prev s k || r2.run prev s k
  | .cat r1 r2, prev, s, k => r1.run prev s fun p2 s2 => r2.run p2 s2 k
  | .opt r, prev, s, k => r.run prev s k || k prev s
  | .plusCls _, _, [], _ => false
  | .plusCls p, _, a :: s, k => p.test a && starRun p (some a) s k
  | .starCls p, prev, s, k => starRun p prev s k
  | .bnd, prev, s, k => atBoundary prev s && k prev s

/-- Greedy star, extraction flavour: returns the state (preceding character
and rest of input) at the first continuation success in preference order. -/
def starRunE (p : CharClass) :
    Option Char → List Char → (Option Char → List Char → Option (Option Char × List Char)) →
    Option (Option Char × List Char)
  | prev, [], k => k prev []
  | prev, a :: s, k =>
    if p.test a then (starRunE p (some a) s k).orElse (fun _ => k prev (a :: s))
    else k prev (a :: s)

/-- Extraction flavour of `Regex.run`: the state after the preferred
(Python-chosen) match of a prefix of `s`, or `none`. -/
def Regex.runE : Regex → Option Char → List Char →
    (Option Char → List Char → Option (Option Char × List Char)) →
    Option (Option Char × List Char)
  | .eps, prev, s, k => k prev s
  | .cls _, _, [], _ => none
  | .cls p, _, a :: s, k => if p.test a then k (some a) s else none
  | .alt r1 r2, prev, s, k => (r1.runE prev s k).orElse fun _ => r2.runE prev s k
  | .cat r1 r2, prev, s, k => r1.runE prev s fun p2 s2 => r2.runE p2 s2 k
  | .opt r, prev, s, k => (r.runE prev s k).orElse fun _ => k prev s
  | .plusCls _, _, [], _ => none
  | .plusCls p, _, a :: s, k => if p.test a then starRunE p (some a) s k else none
  | .starCls p, prev, s, k => starRunE p prev s k
  | .bnd, prev, s, k => if atBoundary prev s then k prev s else none

/-- `re.search` from a given scan position: the text matched by the first
(leftmost, then preference-ordered) match, or `none`. -/
def findFirstFrom (r : Regex) : Option Char → List Char → Option Str
  | prev, s =>
    match r.runE prev s (fun p2 rest => some (p2, rest)) with
    | some (_, rest) => some (s.take (s.length - rest.length))
    | none =>
      match s with
      | [] => none
      | a :: s2 => findFirstFrom r (some a) s2

/-- `pattern.search(s)`'s matched text (`match.group(0)`), or `none`. -/
def Regex.findFirst (r : Regex) (s : Str) : Option Str :=
  findFirstFrom r none s

/-- `pattern.search(s) is not None`. -/
def Regex.search (r : Regex) (s : Str) : Bool :=
  (r.findFirst s).isSome

/-- `pattern.sub(repl, ·)`, fuelled by the input length (each replaced match
consumes at least one character; the source's patterns never match the empty
string, and on a hypothetical empty match the scan simply advances, as the
fuel bound forces termination). -/
def subAux (r : Regex) (repl : Str) : Nat → Option Char → List Char → Str
  | 0, _, s => s
  | _ + 1, _, [] => []
  | fuel + 1, prev, a :: s =>
    match r.runE prev (a :: s) (fun p2 rest => some (p2, rest)) with
    | some (p2, rest) =>
      if rest.length < s.length + 1 then repl ++ subAux r repl fuel p2 rest
      else a :: subAux r repl fuel (some a) s
    | none => a :: subAux r repl fuel (some a) s

/-- Python's `pattern.sub(repl, s)`. -/
def Regex.sub (r : Regex) (repl : Str) (s : Str) : Str :=
  subAux r repl s.length none s

/-- A case-insensitive literal character (the source patterns all use `re.I`). -/
def litChar (c : Char) : Regex :=
  .cls (.ci c.toLower)

/-- A case-insensitive literal string. -/
def lit (s : String) : Regex :=
  (s.data.map litChar).foldr .cat .eps

/-- Chain of alternatives, in source order. -/
def altOf : List Regex → Regex
  | [] => .eps
  | [r] => r
  | r :: rs => .alt r (altOf rs)

/-- `\s+` -/
def ws1 : Regex := .plusCls .ws

/-- `\s*` -/
def ws0 : Regex := .starCls .ws

/-- `\d+` -/
def digits1 : Regex := .plusCls .digit

/-- Python's `str.strip()` (ASCII whitespace). -/
def pyStrip (s : Str) : Str :=
  ((s.dropWhile isSpaceChar).reverse.dropWhile isSpaceChar).reverse

/-- Python's two-argument `min` on floats (modelled on `ℚ`). -/
def pymin (a b : ℚ) : ℚ :=
  if a ≤ b then a else b

/-- Python's `abs` on floats (modelled on `ℚ`). -/
def pyabs (a : ℚ) : ℚ :=
  if a < 0 then -a else a

/-- Python's `needle in hay` substring test. -/
def containsSubstr (hay needle : Str) : Bool :=
  needle.isPrefixOf hay ||
    match hay with
    | [] => false
    | _ :: t => containsSubstr t needle

/-! ### SafetyValidator (`services/safety/safety_validator.py`) -/

/-- A detected safety violation (`SafetyViolation`). -/
structure SafetyViolation where
  rule_id : String
  rule_description : String
  matched_content : Str := []
  severity : String := "block"
deriving DecidableEq

/-- Result of safety validation (`SafetyResult`), fields after
`__post_init__`: construct through `mkSafetyResult`. -/
structure SafetyResult where
  is_safe : Bool
  original_response : Str
  filtered_response : Str := []
  violations : List SafetyViolation := []
  was_modified : Bool := false
  blocked : Bool := false
deriving DecidableEq

/-- `SafetyResult.__post_init__`: an empty `filtered_response` is replaced by
the original response. -/
def mkSafetyResult (is_safe : Bool) (original : Str) (filtered : Str)
    (violations : List SafetyViolation) (was_modified : Bool) (blocked : Bool) :
    SafetyResult :=
  { is_safe := is_safe
    original_response := original
    filtered_response := if filtered.isEmpty then original else filtered
    violations := violations
    was_modified := was_modified
    blocked := blocked }

namespace SafetyValidator

/-- `HARD_CONSTRAINT_PATTERNS`: (rule id, pattern, description); any match
blocks the response. -/
def HARD_CONSTRAINT_PATTERNS : List (String × Regex × String) :=
  [ ("MEDICAL_DIAGNOSIS",
     .cat (lit "you ")
       (.cat (altOf [lit "have", lit "are suffering from", lit "are experiencing"])
         (.cat ws1
           (.cat (.opt (.cat (lit "a") ws1))
             (altOf [lit "panic disorder", lit "anxiety disorder", lit "depression",
                     lit "ptsd", lit "bipolar", lit "schizophrenia", lit "ocd",
                     lit "mental illness"])))),
     "Response contains medical diagnosis"),
    ("MEDICATION_ADVICE",
     .cat (altOf [lit "take", lit "try", lit "consider"])
       (.cat ws1
         (.cat (.opt (.cat digits1 ws0))
           (altOf [lit "mg", lit "milligram", lit "pill", lit "tablet", lit "dose"]))),
     "Response contains medication dosage advice"),
    ("MEDICATION_RECOMMENDATION",
     altOf [lit "xanax", lit "valium", lit "ativan", lit "klonopin", lit "prozac",
            lit "zoloft", lit "lexapro", lit "benzodiazepine", lit "ssri",
            lit "antidepressant", lit "anti-anxiety", lit "anxiolytic"],
     "Response recommends specific medication"),
    ("REPLACE_THERAPY",
     .cat (altOf [lit "don't need", lit "no need for", lit "instead of", lit "better than"])
       (.cat ws1
         (altOf [lit "therapy", lit "therapist", lit "doctor", lit "professional",
                 lit "psychiatrist"])),
     "Response discourages professional help"),
    ("GUARANTEE_CURE",
     .cat (altOf [lit "will", lit "can", lit "going to"])
       (.cat ws1
         (.cat (altOf [lit "cure", lit "fix", lit "heal", lit "eliminate"])
           (.cat ws1
             (.cat (altOf [lit "your", lit "the"])
               (.cat ws1
                 (altOf [lit "anxiety", lit "panic", lit "depression", lit "condition"])))))),
     "Response promises cure"),
    ("DISMISSIVE",
     .cat (.opt (.cat (lit "just") ws1))
       (altOf [lit "calm down", lit "relax", lit "stop worrying", lit "get over it",
               .cat (lit "it's ") (.cat (.opt (lit "all ")) (lit "in your head")),
               .cat (lit "don't be ") (.cat (.opt (.cat (lit "so") ws1)) (lit "dramatic"))]),
     "Response is dismissive of user's experience") ]

/-- `FILTER_PATTERNS`: matches are stripped in place, not blocked. -/
def FILTER_PATTERNS : List (String × Regex × String) :=
  [ ("EXCESSIVE_CERTAINTY",
     .cat .bnd
       (.cat (altOf [lit "definitely", lit "certainly", lit "absolutely", lit "100%",
                     lit "guaranteed"])
         .bnd),
     "Response contains excessive certainty"),
    ("COMPARATIVE_MINIMIZING",
     altOf [lit "others have it worse", lit "could be worse", lit "at least"],
     "Response minimizes by comparison") ]

/-- `CRISIS_REQUIRED_ELEMENTS`. -/
def CRISIS_REQUIRED_ELEMENTS : List (String × Regex) :=
  [ ("CRISIS_HOTLINE",
     altOf [lit "988",
            .cat (lit "crisis") (.cat ws0 (altOf [lit "line", lit "hotline"])),
            .cat (lit "suicide") (.cat ws0 (altOf [lit "prevention", lit "hotline"]))]),
    ("PROFESSIONAL_HELP",
     altOf [lit "professional", lit "therapist", lit "counselor", lit "doctor",
            lit "emergency"]) ]

/-- `FALLBACK_RESPONSE`: substituted for any blocked response. -/
def FALLBACK_RESPONSE : Str :=
  ("I hear you, and I want to make sure you get the best support possible. " ++
   "What you're experiencing is real and valid. " ++
   "If you're in crisis, please reach out to the 988 Suicide & Crisis Lifeline " ++
   "by calling or texting 988. " ++
   "A trained counselor can provide immediate support. " ++
   "I'm here to listen whenever you need.").data

/-- Whether some hard-constraint pattern matches (used to state claims). -/
def anyHardMatch (s : Str) : Bool :=
  HARD_CONSTRAINT_PATTERNS.any fun p => p.2.1.search s

/-- `_check_crisis_requirements`: names of missing required crisis elements. -/
def check_crisis_requirements (response : Str) : List String :=
  CRISIS_REQUIRED_ELEMENTS.foldr (fun p acc => if p.2.search response then acc else p.1 :: acc) []

/-- The appendix added by `_append_crisis_resources`. -/
def crisis_appendix : Str :=
  ("\n\n---\n" ++
   "**If you're in crisis or having thoughts of self-harm:**\n" ++
   "• **988 Suicide & Crisis Lifeline**: Call or text 988 (US)\n" ++
   "• **Crisis Text Line**: Text HOME to 741741\n" ++
   "• **Emergency**: Call 911 or go to your nearest emergency room\n" ++
   "You don't have to face this alone. Professional support is available 24/7.").data

/-- `_append_crisis_resources`. -/
def append_crisis_resources (response : Str) : Str :=
  response ++ crisis_appendix

/-- `\n{3,}` of `_clean_response`. -/
def newline3 : Regex :=
  .cat (.cls (.ex '\n')) (.cat (.cls (.ex '\n')) (.cat (.cls (.ex '\n')) (.starCls (.ex '\n'))))

/-- `' {2,}'` of `_clean_response`. -/
def spaces2 : Regex :=
  .cat (.cls (.ex ' ')) (.plusCls (.ex ' '))

/-- `_clean_response`: collapse runs of 3+ newlines to two, runs of 2+ spaces
to one, then strip. -/
def clean_response (response : Str) : Str :=
  pyStrip (spaces2.sub " ".data (newline3.sub "\n\n".data response))

/-- One step of the soft-filter loop of `validate`: search the current
filtered text, record a warning and strip all matches in place. -/
def filterStep (acc : List SafetyViolation × Str) (p : String × Regex × String) :
    List SafetyViolation × Str :=
  match p.2.1.findFirst acc.2 with
  | some m => (acc.1 ++ [⟨p.1, p.2.2, m, "warning"⟩], p.2.1.sub [] acc.2)
  | none => acc

/-- `SafetyValidator.validate` (strict mode; `_strict_mode` is never read by
`validate` itself).  The `MISSING_CRISIS_ELEMENTS` description renders the
missing-name list joined by commas rather than Python's list `repr`. -/
def validate (response : Str) (is_crisis_response : Bool) : SafetyResult :=
  if response.isEmpty || (pyStrip response).isEmpty then
    mkSafetyResult false response FALLBACK_RESPONSE
      [⟨"EMPTY_RESPONSE", "Response is empty", [], "block"⟩] false true
  else
    let hardViolations : List SafetyViolation :=
      HARD_CONSTRAINT_PATTERNS.filterMap fun p =>
        (p.2.1.findFirst response).map fun m => ⟨p.1, p.2.2, m, "block"⟩
    if hardViolations.any (fun v => v.severity == "block") then
      mkSafetyResult false response FALLBACK_RESPONSE hardViolations false true
    else
      let afterFilter := FILTER_PATTERNS.foldl filterStep (hardViolations, response)
      let afterCrisis :=
        if is_crisis_response then
          let missing := check_crisis_requirements afterFilter.2
          if missing.isEmpty then afterFilter
          else (afterFilter.1 ++
                  [⟨"MISSING_CRISIS_ELEMENTS",
                    "Added missing crisis elements: " ++ String.intercalate ", " missing,
                    [], "warning"⟩],
                append_crisis_resources afterFilter.2)
        else afterFilter
      let filtered := clean_response afterCrisis.2
      mkSafetyResult
        ((afterCrisis.1.filter (fun v => v.severity == "block")).length == 0)
        response filtered afterCrisis.1
        (!(filtered == response)) false

end SafetyValidator

/-! ### Domain enums (`domain/enums/panic_severity.py`, `domain/models/risk_models.py`) -/

/-- `PanicSeverity` (IntEnum 0–4). -/
inductive PanicSeverity
  | NONE | MILD | MODERATE | SEVERE | CRITICAL
deriving DecidableEq

/-- The IntEnum value of a severity. -/
def PanicSeverity.val : PanicSeverity → Nat
  | .NONE => 0
  | .MILD => 1
  | .MODERATE => 2
  | .SEVERE => 3
  | .CRITICAL => 4

instance : LE PanicSeverity := ⟨fun a b => a.val ≤ b.val⟩

instance : LT PanicSeverity := ⟨fun a b => a.val < b.val⟩

instance (a b : PanicSeverity) : Decidable (a ≤ b) :=
  inferInstanceAs (Decidable (a.val ≤ b.val))

instance (a b : PanicSeverity) : Decidable (a < b) :=
  inferInstanceAs (Decidable (a.val < b.val))

/-- `UrgencyLevel`. -/
inductive UrgencyLevel
  | ROUTINE | ELEVATED | HIGH | EMERGENCY
deriving DecidableEq

/-- `UrgencyLevel.from_severity` (total table, `.get(…, HIGH)` unreachable). -/
def UrgencyLevel.from_severity : PanicSeverity → UrgencyLevel
  | .NONE => .ROUTINE
  | .MILD => .ELEVATED
  | .MODERATE => .HIGH
  | .SEVERE => .EMERGENCY
  | .CRITICAL => .EMERGENCY

/-- `RiskLevel` (IntEnum 1–4). -/
inductive RiskLevel
  | LOW | ELEVATED | HIGH | CRITICAL
deriving DecidableEq

/-- The IntEnum value of a risk level. -/
def RiskLevel.val : RiskLevel → Nat
  | .LOW => 1
  | .ELEVATED => 2
  | .HIGH => 3
  | .CRITICAL => 4

instance : LE RiskLevel := ⟨fun a b => a.val ≤ b.val⟩

instance : LT RiskLevel := ⟨fun a b => a.val < b.val⟩

instance (a b : RiskLevel) : Decidable (a ≤ b) :=
  inferInstanceAs (Decidable (a.val ≤ b.val))

instance (a b : RiskLevel) : Decidable (a < b) :=
  inferInstanceAs (Decidable (a.val < b.val))

/-- Python's two-argument `max` on risk levels. -/
def RiskLevel.maxl (a b : RiskLevel) : RiskLevel :=
  if a.val < b.val then b else a

/-- `EscalationAction`. -/
inductive EscalationAction
  | CONTINUE_SUPPORT | ENCOURAGE_HELP | PRESENT_RESOURCES | LOG_FOR_REVIEW
deriving DecidableEq

/-- `RiskSignalType`. -/
inductive RiskSignalType
  | LINGUISTIC | EMOTIONAL | BEHAVIORAL | HISTORICAL | CONTEXTUAL
deriving DecidableEq

/-- `EmotionCategory` (`domain/models/clinical_output.py`). -/
inductive EmotionCategory
  | FEAR | DREAD | LOSS_OF_CONTROL | DISSOCIATION | HELPLESSNESS
  | HYPERVIGILANCE | SHAME | CONFUSION
deriving DecidableEq

/-- The StrEnum value of an emotion category. -/
def EmotionCategory.value : EmotionCategory → String
  | .FEAR => "fear"
  | .DREAD => "dread"
  | .LOSS_OF_CONTROL => "loss_of_control"
  | .DISSOCIATION => "dissociation"
  | .HELPLESSNESS => "helplessness"
  | .HYPERVIGILANCE => "hypervigilance"
  | .SHAME => "shame"
  | .CONFUSION => "confusion"

/-- `DistressType`. -/
inductive DistressType
  | PHYSIOLOGICAL | COGNITIVE | BEHAVIORAL | EMOTIONAL
deriving DecidableEq

/-- `PanicTrigger` (`domain/models/panic_event.py`). -/
inductive PanicTrigger
  | UNKNOWN | SOCIAL | HEALTH_ANXIETY | WORK_STRESS | RELATIONSHIP | FINANCIAL
  | TRAUMA_REMINDER | PHYSICAL_SYMPTOMS | CAFFEINE | SLEEP_DEPRIVATION
  | CROWDED_SPACE | OTHER
deriving DecidableEq

/-- `PanicTrigger(value)`: parse a StrEnum value, `none` when Python raises
`ValueError`. -/
def PanicTrigger.fromStr (s : String) : Option PanicTrigger :=
  if s == "unknown" then some .UNKNOWN
  else if s == "social" then some .SOCIAL
  else if s == "health_anxiety" then some .HEALTH_ANXIETY
  else if s == "work_stress" then some .WORK_STRESS
  else if s == "relationship" then some .RELATIONSHIP
  else if s == "financial" then some .FINANCIAL
  else if s == "trauma_reminder" then some .TRAUMA_REMINDER
  else if s == "physical_symptoms" then some .PHYSICAL_SYMPTOMS
  else if s == "caffeine" then some .CAFFEINE
  else if s == "sleep_deprivation" then some .SLEEP_DEPRIVATION
  else if s == "crowded_space" then some .CROWDED_SPACE
  else if s == "other" then some .OTHER
  else none

/-- `PanicIntervention` (`domain/models/panic_event.py`). -/
inductive PanicIntervention
  | GROUNDING_TECHNIQUE | BREATHING_EXERCISE | COGNITIVE_REFRAME
  | PROGRESSIVE_RELAXATION | VALIDATION | DISTRACTION | CRISIS_RESOURCES
  | PROFESSIONAL_REFERRAL
deriving DecidableEq

/-- `PanicIntervention(value)`: parse a StrEnum value. -/
def PanicIntervention.fromStr (s : String) : Option PanicIntervention :=
  if s == "grounding_technique" then some .GROUNDING_TECHNIQUE
  else if s == "breathing_exercise" then some .BREATHING_EXERCISE
  else if s == "cognitive_reframe" then some .COGNITIVE_REFRAME
  else if s == "progressive_relaxation" then some .PROGRESSIVE_RELAXATION
  else if s == "validation" then some .VALIDATION
  else if s == "distraction" then some .DISTRACTION
  else if s == "crisis_resources" then some .CRISIS_RESOURCES
  else if s == "professional_referral" then some .PROFESSIONAL_REFERRAL
  else none

/-! ### Clinical output contract (`domain/models/clinical_output.py`) -/

/-- `EmotionScore`. -/
structure EmotionScore where
  category : EmotionCategory
  confidence : ℚ
  intensity : ℚ := 0
  is_primary : Bool := false
deriving DecidableEq

/-- Python's `max(emotions, key=confidence)`: the first score of maximal
confidence. -/
def maxByConf : EmotionScore → List EmotionScore → EmotionScore
  | best, [] => best
  | best, e :: rest => maxByConf (if best.confidence < e.confidence then e else best) rest

/-- `EmotionProfile` (fields after `__post_init__`; construct through
`mkEmotionProfile`).  The `is_primary` back-flag set on the chosen score by
`__post_init__` is not modelled: no consumer reads it. -/
structure EmotionProfile where
  emotions : List EmotionScore := []
  dominant_emotion : Option EmotionCategory := none
  emotional_volatility : ℚ := 0
deriving DecidableEq

/-- `EmotionProfile.__post_init__`: derive the dominant emotion from the
highest-confidence score when unset. -/
def mkEmotionProfile (emotions : List EmotionScore) (dominant_emotion : Option EmotionCategory)
    (emotional_volatility : ℚ) : EmotionProfile :=
  { emotions := emotions
    dominant_emotion :=
      match dominant_emotion, emotions with
      | none, e :: rest => some (maxByConf e rest).category
      | d, _ => d
    emotional_volatility := emotional_volatility }

/-- `EmotionProfile.get_emotion_score`. -/
def EmotionProfile.get_emotion_score (p : EmotionProfile) (category : EmotionCategory) : ℚ :=
  match p.emotions.find? (fun e => e.category == category) with
  | some e => e.confidence
  | none => 0

/-- `DistressIndicator`. -/
structure DistressIndicator where
  indicator_type : DistressType
  description : String
  severity : ℚ
  source_text : String := ""
  clinical_notes : String := ""
deriving DecidableEq

/-- `DistressIndicators`. -/
structure DistressIndicators where
  physiological : List DistressIndicator := []
  cognitive : List DistressIndicator := []
  behavioral : List DistressIndicator := []
  emotional : List DistressIndicator := []
  overall_distress_level : ℚ := 0
deriving DecidableEq

/-- `DistressIndicators.all_indicators`. -/
def DistressIndicators.all_indicators (d : DistressIndicators) : List DistressIndicator :=
  d.physiological ++ d.cognitive ++ d.behavioral ++ d.emotional

/-- `DistressIndicators.indicator_count`. -/
def DistressIndicators.indicator_count (d : DistressIndicators) : Nat :=
  d.all_indicators.length

/-- `SeverityClassification` (fields after `__post_init__`; construct through
`mkSeverityClassification`).  The probability dict is a key/value list. -/
structure SeverityClassification where
  predicted_severity : PanicSeverity
  probabilities : List (PanicSeverity × ℚ) := []
  confidence : ℚ := 0
  uncertainty_flag : Bool := false
deriving DecidableEq

/-- Insertion into a descending-sorted list (for `sorted(…, reverse=True)`). -/
def insertDesc (x : ℚ) : List ℚ → List ℚ
  | [] => [x]
  | y :: ys => if y < x then x :: y :: ys else y :: insertDesc x ys

/-- `sorted(values, reverse=True)`. -/
def sortDesc (l : List ℚ) : List ℚ :=
  l.foldr insertDesc []

/-- `SeverityClassification.__post_init__`: flag uncertainty on low confidence
or when the top two class probabilities are within 0.15. -/
def mkSeverityClassification (predicted_severity : PanicSeverity)
    (probabilities : List (PanicSeverity × ℚ)) (confidence : ℚ) (uncertainty_flag : Bool) :
    SeverityClassification :=
  { predicted_severity := predicted_severity
    probabilities := probabilities
    confidence := confidence
    uncertainty_flag :=
      if confidence < 0.6 then true
      else
        match sortDesc (probabilities.map Prod.snd) with
        | a :: b :: _ => if a - b < 0.15 then true else uncertainty_flag
        | _ => uncertainty_flag }

/-- `TriggerAnalysis`. -/
structure TriggerAnalysis where
  immediate_triggers : List String := []
  historical_triggers : List String := []
  temporal_patterns : List String := []
  context_factors : List String := []
deriving DecidableEq

/-- `ClinicalAssessment` (fields after `__post_init__`; construct through
`mkClinicalAssessment`).  UUIDs, timestamps and audit hashes are omitted. -/
structure ClinicalAssessment where
  severity : SeverityClassification
  emotion_profile : EmotionProfile := {}
  distress_indicators : DistressIndicators := {}
  trigger_analysis : TriggerAnalysis := {}
  urgency : UrgencyLevel := .ROUTINE
  requires_crisis_protocol : Bool := false
  requires_human_review : Bool := false
  confidence_score : ℚ := 0
  uncertainty_flags : List String := []
deriving DecidableEq

/-- `ClinicalAssessment.__post_init__`: force the crisis protocol flag at
CRITICAL severity, derive urgency, and flag human review on severity
uncertainty. -/
def mkClinicalAssessment (severity : SeverityClassification)
    (emotion_profile : EmotionProfile) (distress_indicators : DistressIndicators)
    (trigger_analysis : TriggerAnalysis) (requires_crisis_protocol : Bool)
    (requires_human_review : Bool) (confidence_score : ℚ)
    (uncertainty_flags : List String) : ClinicalAssessment :=
  { severity := severity
    emotion_profile := emotion_profile
    distress_indicators := distress_indicators
    trigger_analysis := trigger_analysis
    urgency := UrgencyLevel.from_severity severity.predicted_severity
    requires_crisis_protocol :=
      requires_crisis_protocol || decide (PanicSeverity.CRITICAL ≤ severity.predicted_severity)
    requires_human_review := requires_human_review || severity.uncertainty_flag
    confidence_score := confidence_score
    uncertainty_flags :=
      if severity.uncertainty_flag && !(uncertainty_flags.contains "severity_uncertainty") then
        uncertainty_flags ++ ["severity_uncertainty"]
      else uncertainty_flags }

/-! ### Risk models (`domain/models/risk_models.py`) -/

/-- `RiskSignal`. -/
structure RiskSignal where
  signal_type : RiskSignalType
  signal_name : String
  description : String
  weight : ℚ
  confidence : ℚ := 1
  source : String := "unknown"
deriving DecidableEq

/-- `RiskSignal.weighted_contribution`. -/
def RiskSignal.weighted_contribution (s : RiskSignal) : ℚ :=
  s.weight * s.confidence

/-- `RiskAssessment` (fields after `__post_init__`; construct through
`mkRiskAssessment`).  UUIDs and timestamps are omitted; the
`thresholds_applied` audit dict is a key/value list. -/
structure RiskAssessment where
  risk_level : RiskLevel := .LOW
  risk_score : ℚ := 0
  confidence : ℚ := 0
  signals : List RiskSignal := []
  signal_count : Nat := 0
  has_uncertainty : Bool := false
  uncertainty_reasons : List String := []
  recommended_actions : List EscalationAction := []
  requires_human_review : Bool := false
  thresholds_applied : List (String × ℚ) := []
deriving DecidableEq

/-- `RiskAssessment.__post_init__`: derive the signal count, auto-flag human
review at CRITICAL, and flag uncertainty on low confidence. -/
def mkRiskAssessment (risk_level : RiskLevel) (risk_score confidence : ℚ)
    (signals : List RiskSignal) (has_uncertainty : Bool) (uncertainty_reasons : List String)
    (recommended_actions : List EscalationAction) (requires_human_review : Bool)
    (thresholds_applied : List (String × ℚ)) : RiskAssessment :=
  { risk_level := risk_level
    risk_score := risk_score
    confidence := confidence
    signals := signals
    signal_count := signals.length
    has_uncertainty := has_uncertainty || decide (confidence < 0.6)
    uncertainty_reasons :=
      if confidence < 0.6 && !(uncertainty_reasons.contains "low_confidence") then
        uncertainty_reasons ++ ["low_confidence"]
      else uncertainty_reasons
    recommended_actions := recommended_actions
    requires_human_review := requires_human_review || decide (RiskLevel.CRITICAL ≤ risk_level)
    thresholds_applied := thresholds_applied }

/-- `EscalationEvent` (audit identifiers, timestamps and review-status fields
omitted). -/
structure EscalationEvent where
  previous_risk_level : RiskLevel := .LOW
  new_risk_level : RiskLevel := .LOW
  actions_taken : List EscalationAction := []
  resources_provided : List String := []
deriving DecidableEq

/-! ### RiskScoringEngine (`services/safety/risk_engine.py`) -/

/-- `RiskThresholds` (defaults as in the source dataclass). -/
structure RiskThresholds where
  critical_threshold : ℚ := 0.85
  high_threshold : ℚ := 0.65
  elevated_threshold : ℚ := 0.40
  min_signals_for_critical : Nat := 3
  min_signals_for_high : Nat := 2
  low_confidence_threshold : ℚ := 0.5
  require_multi_signal_types : Bool := true
deriving DecidableEq

/-- The default `RiskThresholds()` used when none are supplied. -/
def defaultRiskThresholds : RiskThresholds := {}

namespace RiskScoringEngine

/-- `SIGNAL_WEIGHTS`. -/
def SIGNAL_WEIGHTS : List (String × ℚ) :=
  [("severity_critical", 0.35),
   ("severity_severe", 0.25),
   ("severity_moderate", 0.15),
   ("emotion_dread", 0.20),
   ("emotion_dissociation", 0.25),
   ("emotion_helplessness", 0.15),
   ("emotion_loss_of_control", 0.20),
   ("high_distress", 0.20),
   ("crisis_protocol_active", 0.40),
   ("high_volatility", 0.15),
   ("uncertainty", -0.05)]

/-- `SIGNAL_WEIGHTS[name]` (every indexed key is present). -/
def weightIx (name : String) : ℚ :=
  (SIGNAL_WEIGHTS.lookup name).getD 0

/-- `SIGNAL_WEIGHTS.get(name, dflt)`. -/
def weightOf (name : String) (dflt : ℚ) : ℚ :=
  (SIGNAL_WEIGHTS.lookup name).getD dflt

/-- `_extract_severity_signals`. -/
def extract_severity_signals (clinical : ClinicalAssessment) : List RiskSignal :=
  let severity := clinical.severity.predicted_severity
  if PanicSeverity.CRITICAL ≤ severity then
    [⟨.BEHAVIORAL, "severity_critical", "Critical panic severity detected",
      weightIx "severity_critical", clinical.severity.confidence, "panic_classifier"⟩]
  else if PanicSeverity.SEVERE ≤ severity then
    [⟨.BEHAVIORAL, "severity_severe", "Severe panic severity detected",
      weightIx "severity_severe", clinical.severity.confidence, "panic_classifier"⟩]
  else if PanicSeverity.MODERATE ≤ severity then
    [⟨.BEHAVIORAL, "severity_moderate", "Moderate panic severity detected",
      weightIx "severity_moderate", clinical.severity.confidence, "panic_classifier"⟩]
  else []

/-- The `risk_emotions` table of `_extract_emotion_signals`. -/
def risk_emotions : List (EmotionCategory × String) :=
  [(.DREAD, "emotion_dread"),
   (.DISSOCIATION, "emotion_dissociation"),
   (.HELPLESSNESS, "emotion_helplessness"),
   (.LOSS_OF_CONTROL, "emotion_loss_of_control")]

/-- `_extract_emotion_signals`. -/
def extract_emotion_signals (clinical : ClinicalAssessment) : List RiskSignal :=
  let profile := clinical.emotion_profile
  (profile.emotions.filterMap fun e =>
    match risk_emotions.lookup e.category with
    | some signal_name =>
      if 0.5 < e.confidence then
        some ⟨.EMOTIONAL, signal_name, "High " ++ e.category.value ++ " detected",
              weightOf signal_name 0.1, e.confidence, "emotion_detector"⟩
      else none
    | none => none) ++
  (if 0.7 < profile.emotional_volatility then
    [⟨.EMOTIONAL, "high_volatility", "High emotional volatility detected",
      weightIx "high_volatility", profile.emotional_volatility, "emotion_detector"⟩]
  else [])

/-- `_extract_distress_signals`. -/
def extract_distress_signals (clinical : ClinicalAssessment) : List RiskSignal :=
  let distress := clinical.distress_indicators
  if 0.7 < distress.overall_distress_level then
    [⟨.BEHAVIORAL, "high_distress", "High overall distress level",
      weightIx "high_distress", distress.overall_distress_level, "distress_indicators"⟩]
  else []

/-- `_extract_historical_signals`; history entries are the
`h.get("risk_score", 0)` values. -/
def extract_historical_signals (session_history : List ℚ) : List RiskSignal :=
  if 3 ≤ session_history.length then
    let recent := session_history.drop (session_history.length - 3)
    if recent.all (fun h => decide (0.4 < h)) then
      [⟨.HISTORICAL, "sustained_risk", "Sustained elevated risk over session",
        0.15, 0.8, "session_history"⟩]
    else []
  else []

/-- `_calculate_risk_score`: `(risk_score, confidence)`. -/
def calculate_risk_score (signals : List RiskSignal) (clinical : ClinicalAssessment) : ℚ × ℚ :=
  if signals.isEmpty then (0, 1)
  else
    let total_weight := (signals.map RiskSignal.weighted_contribution).sum
    let max_weight := (SIGNAL_WEIGHTS.map (fun p => pyabs p.2)).sum
    let risk_score := pymin 1 (total_weight / max_weight)
    let avg_confidence := (signals.map RiskSignal.confidence).sum / (signals.length : ℚ)
    (risk_score, (avg_confidence + clinical.confidence_score) / 2)

/-- `_classify_risk_level`. -/
def classify_risk_level (t : RiskThresholds) (risk_score : ℚ) (signals : List RiskSignal) :
    RiskLevel :=
  let signal_count := signals.length
  let signal_types := (signals.map RiskSignal.signal_type).dedup.length
  if t.critical_threshold ≤ risk_score then
    if t.min_signals_for_critical ≤ signal_count then
      if !t.require_multi_signal_types || 2 ≤ signal_types then .CRITICAL
      else .HIGH
    else .HIGH
  else if t.high_threshold ≤ risk_score then
    if t.min_signals_for_high ≤ signal_count then .HIGH else .ELEVATED
  else if t.elevated_threshold ≤ risk_score then .ELEVATED
  else .LOW

/-- `_determine_actions` (its `signals` argument is unused in the source). -/
def determine_actions (risk_level : RiskLevel) (_signals : List RiskSignal) :
    List EscalationAction :=
  match risk_level with
  | .LOW => [.CONTINUE_SUPPORT]
  | .ELEVATED => [.CONTINUE_SUPPORT, .LOG_FOR_REVIEW]
  | .HIGH => [.ENCOURAGE_HELP, .PRESENT_RESOURCES, .LOG_FOR_REVIEW]
  | .CRITICAL => [.PRESENT_RESOURCES, .ENCOURAGE_HELP, .LOG_FOR_REVIEW]

/-- `RiskScoringEngine.assess`. -/
def assess (t : RiskThresholds) (clinical : ClinicalAssessment)
    (session_history : Option (List ℚ)) : RiskAssessment :=
  let signals :=
    extract_severity_signals clinical ++
    extract_emotion_signals clinical ++
    extract_distress_signals clinical ++
    (if clinical.requires_crisis_protocol then
      [⟨.BEHAVIORAL, "crisis_protocol_active", "Clinical assessment flagged crisis protocol",
        weightIx "crisis_protocol_active", 1, "clinical_assessment"⟩]
    else []) ++
    (match session_history with
     | some h => if !h.isEmpty then extract_historical_signals h else []
     | none => [])
  let sc := calculate_risk_score signals clinical
  let risk_level0 := classify_risk_level t sc.1 signals
  let actions := determine_actions risk_level0 signals
  let hasLowConf := decide (sc.2 < t.low_confidence_threshold)
  let has_uncertainty := hasLowConf || clinical.severity.uncertainty_flag
  let uncertainty_reasons :=
    (if hasLowConf then ["low_confidence"] else []) ++
    (if clinical.severity.uncertainty_flag then ["severity_uncertain"] else [])
  let risk_level :=
    if has_uncertainty && decide (risk_level0 < RiskLevel.HIGH) && decide ((0.3 : ℚ) < sc.1) then
      risk_level0.maxl .ELEVATED
    else risk_level0
  mkRiskAssessment risk_level sc.1 sc.2 signals has_uncertainty uncertainty_reasons actions
    false
    [("critical", t.critical_threshold), ("high", t.high_threshold),
     ("elevated", t.elevated_threshold)]

end RiskScoringEngine

/-! ### CrisisDetector (`services/safety/crisis_detector.py`) -/

/-- `CrisisSignal`. -/
structure CrisisSignal where
  signal_name : String
  description : String
  category : String
  weight : ℚ
  confidence : ℚ
  pattern_matched : Str := []
deriving DecidableEq

/-- `CrisisDetectionResult` (fields after `__post_init__`; construct through
`mkCrisisDetectionResult`). -/
structure CrisisDetectionResult where
  has_crisis_signals : Bool := false
  signals : List CrisisSignal := []
  linguistic_signal_count : Nat := 0
  emotional_signal_count : Nat := 0
  behavioral_signal_count : Nat := 0
  combined_crisis_score : ℚ := 0
  meets_multi_signal_requirement : Bool := false
deriving DecidableEq

/-- `CrisisDetectionResult.__post_init__`: per-category counts, and the
multi-signal requirement (at least two distinct categories present). -/
def mkCrisisDetectionResult (has_crisis_signals : Bool) (signals : List CrisisSignal)
    (combined_crisis_score : ℚ) : CrisisDetectionResult :=
  { has_crisis_signals := has_crisis_signals
    signals := signals
    linguistic_signal_count := (signals.filter (fun s => s.category == "linguistic")).length
    emotional_signal_count := (signals.filter (fun s => s.category == "emotional")).length
    behavioral_signal_count := (signals.filter (fun s => s.category == "behavioral")).length
    combined_crisis_score := combined_crisis_score
    meets_multi_signal_requirement := 2 ≤ (signals.map CrisisSignal.category).dedup.length }

/-- `CrisisDetectionResult.to_risk_signals`. -/
def CrisisDetectionResult.to_risk_signals (r : CrisisDetectionResult) : List RiskSignal :=
  r.signals.map fun s =>
    ⟨if s.category == "linguistic" then .LINGUISTIC
      else if s.category == "emotional" then .EMOTIONAL
      else .BEHAVIORAL,
     s.signal_name, s.description, s.weight, s.confidence, "crisis_detector"⟩

namespace CrisisDetector

/-- `MIN_SIGNALS_FOR_CONCERN`. -/
def MIN_SIGNALS_FOR_CONCERN : Nat := 2

/-- `_analyze_emotions`. -/
def analyze_emotions (clinical : ClinicalAssessment) : List CrisisSignal :=
  let profile := clinical.emotion_profile
  let dread_score := profile.get_emotion_score .DREAD
  let dissoc_score := profile.get_emotion_score .DISSOCIATION
  let helpless_score := profile.get_emotion_score .HELPLESSNESS
  (if 0.7 < dread_score then
    [⟨"severe_dread", "Severe dread/impending doom detected", "emotional", 0.25, dread_score, []⟩]
  else []) ++
  (if 0.6 < dissoc_score then
    [⟨"dissociation", "Significant dissociation detected", "emotional", 0.20, dissoc_score, []⟩]
  else []) ++
  (if 0.7 < helpless_score then
    [⟨"severe_helplessness", "Severe helplessness detected", "emotional", 0.25, helpless_score, []⟩]
  else []) ++
  (if PanicSeverity.SEVERE ≤ clinical.severity.predicted_severity && profile.emotions.isEmpty then
    [⟨"emotional_shutdown", "Emotional shutdown at high severity", "emotional", 0.20, 0.7, []⟩]
  else [])

/-- `_analyze_behavioral`. -/
def analyze_behavioral (clinical : ClinicalAssessment) : List CrisisSignal :=
  if PanicSeverity.CRITICAL ≤ clinical.severity.predicted_severity then
    [⟨"critical_severity", "Critical panic severity level", "behavioral", 0.30,
      clinical.severity.confidence, []⟩]
  else []

/-- `_analyze_distress`. -/
def analyze_distress (clinical : ClinicalAssessment) : List CrisisSignal :=
  let distress := clinical.distress_indicators
  (if 0.8 < distress.overall_distress_level then
    [⟨"extreme_distress", "Extreme overall distress level", "behavioral", 0.25,
      distress.overall_distress_level, []⟩]
  else []) ++
  (if 4 ≤ distress.indicator_count then
    [⟨"multi_domain_distress", "Distress across multiple domains", "behavioral", 0.15, 0.8, []⟩]
  else [])

/-- `_calculate_combined_score`. -/
def calculate_combined_score (signals : List CrisisSignal) : ℚ :=
  if signals.isEmpty then 0
  else pymin 1 ((signals.map fun s => s.weight * s.confidence).sum)

/-- `CrisisDetector.detect`. -/
def detect (clinical : ClinicalAssessment) : CrisisDetectionResult :=
  let signals :=
    analyze_emotions clinical ++
    analyze_behavioral clinical ++
    analyze_distress clinical ++
    (if clinical.requires_crisis_protocol then
      [⟨"crisis_protocol_flag", "Clinical pipeline flagged crisis", "behavioral", 0.35, 1, []⟩]
    else [])
  let combined_score := calculate_combined_score signals
  let has_signals := MIN_SIGNALS_FOR_CONCERN ≤ signals.length
  mkCrisisDetectionResult has_signals signals combined_score

end CrisisDetector

/-- The `LINGUISTIC_PATTERNS` of `CrisisDetector` /
`LinguisticCrisisAnalyzer`: (signal name, pattern, weight). -/
def LINGUISTIC_PATTERNS : List (String × Regex × ℚ) :=
  [ ("direct_self_harm_intent",
     .cat (altOf [lit "want", lit "going", lit "plan", lit "thinking about", lit "considering"])
       (.cat ws1
         (.cat (.opt (.cat (lit "to") ws1))
           (.cat (altOf [lit "hurt", lit "harm", lit "kill", lit "end"])
             (.cat ws1 (altOf [lit "myself", lit "my life", lit "it all"]))))),
     0.40),
    ("suicide_ideation",
     altOf [.cat (altOf [lit "want", lit "wish", lit "rather"])
              (.cat ws1 (.cat (.opt (.cat (lit "to") ws1))
                (.cat (.opt (.cat (lit "be") ws1)) (lit "dead")))),
            .cat (altOf [lit "don't", lit "do not"])
              (.cat ws1 (.cat (lit "want") (.cat ws1 (.cat (lit "to") (.cat ws1
                (altOf [lit "live", lit "be here", lit "exist"])))))),
            .cat (lit "wish") (.cat ws1 (.cat (lit "i") (.cat ws1
              (.cat (altOf [lit "was", lit "were"]) (.cat ws1
                (.cat (.opt (.cat (lit "never") ws1)) (lit "born")))))))],
     0.35),
    ("method_reference",
     altOf [lit "pills", lit "overdose", lit "cut", lit "cutting", lit "jump", lit "jumping",
            lit "hanging", lit "gun", lit "weapon"],
     0.25),
    ("hopelessness_expression",
     altOf [.cat (lit "no") (.cat ws1
              (altOf [.cat (lit "way") (.cat ws1 (lit "out")), lit "hope", lit "point",
                      lit "reason"])),
            .cat (lit "never") (.cat ws1 (.cat (lit "get") (.cat ws1 (lit "better")))),
            .cat (lit "can't") (.cat ws1
              (altOf [.cat (lit "go") (.cat ws1 (lit "on")),
                      .cat (lit "take") (.cat ws1 (.cat (altOf [lit "it", lit "this"])
                        (.cat ws1 (lit "anymore"))))])),
            .cat (lit "give") (.cat ws1 (lit "up"))],
     0.20),
    ("farewell_language",
     altOf [.cat (lit "goodbye") (.cat ws1 (lit "forever")),
            .cat (lit "won't") (.cat ws1 (.cat (lit "be") (.cat ws1
              (altOf [lit "here", lit "around", .cat (lit "a") (.cat ws1 (lit "problem"))])))),
            .cat (lit "better") (.cat ws1 (.cat (lit "off") (.cat ws1
              (.cat (lit "without") (.cat ws1 (lit "me")))))),
            .cat (lit "saying") (.cat ws1 (lit "goodbye"))],
     0.30),
    ("burden_expression",
     altOf [.cat (altOf [lit "burden", lit "bother", lit "problem"])
              (.cat ws1 (.cat (altOf [lit "to", lit "for"]) (.cat ws1
                (altOf [lit "everyone", lit "you", lit "them", lit "others"])))),
            .cat (lit "everyone")
              (.cat (.starCls .dot) (.cat (lit "better") (.cat (.starCls .dot)
                (.cat (lit "without") (.cat ws1 (lit "me"))))))],
     0.20) ]

/-- `LinguisticCrisisAnalyzer.analyze_text`. -/
def LinguisticCrisisAnalyzer.analyze_text (text : Str) : List CrisisSignal :=
  if text.isEmpty || (pyStrip text).isEmpty then []
  else
    LINGUISTIC_PATTERNS.filterMap fun p =>
      (p.2.1.findFirst text).map fun m =>
        ⟨p.1, "Matched pattern: " ++ p.1, "linguistic", p.2.2, 0.9, m⟩

/-! ### EmergencyResourceResolver (`services/safety/emergency_resources.py`) -/

/-- `EmergencyResource`. -/
structure EmergencyResource where
  name : String
  resource_type : String
  contact : String
  description : String := ""
  available_24_7 : Bool := true
  languages : List String := ["en"]
deriving DecidableEq

/-- `EmergencyResource.format_for_user`. -/
def EmergencyResource.format_for_user (r : EmergencyResource) : Str :=
  ("• **" ++ r.name ++ "**: " ++ r.contact ++ " " ++
   (if r.available_24_7 then "(24/7)" else "")).data

/-- `JurisdictionResources`. -/
structure JurisdictionResources where
  country_code : String
  country_name : String
  region_code : Option String := none
  region_name : Option String := none
  resources : List EmergencyResource := []
  emergency_number : String := ""
  mental_health_resources : List EmergencyResource := []
deriving DecidableEq

/-- `JurisdictionResources.get_crisis_hotlines`. -/
def JurisdictionResources.get_crisis_hotlines (j : JurisdictionResources) :
    List EmergencyResource :=
  j.resources.filter fun r => r.resource_type == "hotline"

namespace EmergencyResourceResolver

/-- `DEFAULT_RESOURCES` (international fallback). -/
def DEFAULT_RESOURCES : JurisdictionResources :=
  { country_code := "INTL"
    country_name := "International"
    resources :=
      [{ name := "International Association for Suicide Prevention"
         resource_type := "website"
         contact := "https://www.iasp.info/resources/Crisis_Centres/"
         description := "Directory of crisis centers worldwide" },
       { name := "Befrienders Worldwide"
         resource_type := "website"
         contact := "https://www.befrienders.org/"
         description := "Emotional support centers globally" }] }

/-- `BUILT_IN_RESOURCES` as a lookup (the resolver is constructed without a
config file, so `_resources` is exactly this table). -/
def builtinLookup (key : String) : Option JurisdictionResources :=
  if key == "US" then some
    { country_code := "US", country_name := "United States", emergency_number := "911"
      resources :=
        [{ name := "988 Suicide & Crisis Lifeline", resource_type := "hotline",
           contact := "988", description := "National suicide prevention lifeline",
           languages := ["en", "es"] },
         { name := "Crisis Text Line", resource_type := "text",
           contact := "Text HOME to 741741", description := "Text-based crisis support" },
         { name := "SAMHSA National Helpline", resource_type := "hotline",
           contact := "1-800-662-4357", description := "Substance abuse and mental health" }] }
  else if key == "GB" then some
    { country_code := "GB", country_name := "United Kingdom", emergency_number := "999"
      resources :=
        [{ name := "Samaritans", resource_type := "hotline", contact := "116 123",
           description := "Emotional support for anyone in distress" },
         { name := "SHOUT", resource_type := "text", contact := "Text SHOUT to 85258",
           description := "Text-based mental health support" }] }
  else if key == "SA" then some
    { country_code := "SA", country_name := "Saudi Arabia", emergency_number := "911"
      resources :=
        [{ name := "Mental Health Hotline", resource_type := "hotline",
           contact := "920033360", description := "National mental health support line",
           languages := ["ar", "en"] }] }
  else if key == "AE" then some
    { country_code := "AE", country_name := "United Arab Emirates", emergency_number := "999"
      resources :=
        [{ name := "Dubai Health Authority Mental Health", resource_type := "hotline",
           contact := "800342", description := "Mental health support line",
           available_24_7 := false, languages := ["ar", "en"] }] }
  else if key == "EG" then some
    { country_code := "EG", country_name := "Egypt", emergency_number := "123"
      resources :=
        [{ name := "Befrienders Cairo", resource_type := "hotline",
           contact := "+20 2 7621602", description := "Emotional support helpline",
           available_24_7 := false, languages := ["ar", "en"] }] }
  else none

/-- `get_resources`. -/
def get_resources (country_code : String) (region_code : Option String) :
    JurisdictionResources :=
  let key := match region_code with
    | some rc => country_code ++ ":" ++ rc
    | none => country_code
  match builtinLookup key with
  | some r => r
  | none =>
    match builtinLookup country_code with
    | some r => r
    | none => DEFAULT_RESOURCES

/-- `format_crisis_message` (the Python default for `include_emergency` is
`true`). -/
def format_crisis_message (country_code : String) (include_emergency : Bool) : Str :=
  let resources := get_resources country_code none
  let lines : List Str :=
    ["---".data,
     "**If you're in crisis or having thoughts of self-harm:**\n".data] ++
    (if include_emergency && !resources.emergency_number.isEmpty then
      [("• **Emergency**: " ++ resources.emergency_number).data]
    else []) ++
    ((resources.resources.take 3).map EmergencyResource.format_for_user) ++
    [[], "You don't have to face this alone. Professional support is available.".data]
  List.intercalate "\n".data lines

/-- `get_primary_hotline`. -/
def get_primary_hotline (country_code : String) : Option EmergencyResource :=
  (get_resources country_code none).get_crisis_hotlines.head?

end EmergencyResourceResolver

/-! ### EscalationManager (`services/safety/escalation_manager.py`) -/

/-- The `response_modifications` dict of `_build_modifications`, with the
optional `acknowledge_uncertainty` key as a boolean (absent = false). -/
structure ResponseModifications where
  tone : String := "supportive"
  include_resources : Bool := false
  encourage_professional_help : Bool := false
  keep_brief : Bool := false
  crisis_mode : Bool := false
  acknowledge_uncertainty : Bool := false
deriving DecidableEq

/-- `EscalationDecision`. -/
structure EscalationDecision where
  should_escalate : Bool := false
  current_level : RiskLevel := .LOW
  actions : List EscalationAction := []
  response_modifications : ResponseModifications := {}
  resources_to_include : Option Str := none
  log_event : Option EscalationEvent := none
deriving DecidableEq

namespace EscalationManager

/-- `_build_modifications`. -/
def build_modifications (level : RiskLevel) (risk : RiskAssessment) : ResponseModifications :=
  let m : ResponseModifications :=
    match level with
    | .LOW => { tone := "warm" }
    | .ELEVATED => { tone := "calm", encourage_professional_help := true }
    | .HIGH => { tone := "calm", include_resources := true,
                 encourage_professional_help := true, keep_brief := true }
    | .CRITICAL => { tone := "direct", include_resources := true,
                     encourage_professional_help := true, keep_brief := true,
                     crisis_mode := true }
  { m with acknowledge_uncertainty := risk.has_uncertainty }

/-- `EscalationManager.evaluate`.  The mutable `_event_log` is represented by
the returned `log_event` (the caller appends it). -/
def evaluate (risk : RiskAssessment) (country_code : String)
    (previous_level : Option RiskLevel) : EscalationDecision :=
  let current_level := risk.risk_level
  let should_escalate :=
    match previous_level with
    | some prev => decide (prev < current_level)
    | none => false
  let actions := risk.recommended_actions
  let modifications := build_modifications current_level risk
  let resources_text : Option Str :=
    if RiskLevel.HIGH ≤ current_level then
      some (EmergencyResourceResolver.format_crisis_message country_code
        (decide (RiskLevel.CRITICAL ≤ current_level)))
    else none
  let event : Option EscalationEvent :=
    if should_escalate || decide (RiskLevel.HIGH ≤ current_level) then
      some { previous_risk_level := previous_level.getD .LOW
             new_risk_level := current_level
             actions_taken := actions
             resources_provided := if resources_text.isSome then ["crisis_message"] else [] }
    else none
  { should_escalate := should_escalate
    current_level := current_level
    actions := actions
    response_modifications := modifications
    resources_to_include := resources_text
    log_event := event }

/-- `get_response_prefix` (the level-keyed prefix template). -/
def response_prefix_text (level : RiskLevel) : Str :=
  match level with
  | .LOW => []
  | .ELEVATED =>
    "I hear you, and I want you to know that what you're feeling is valid. ".data
  | .HIGH =>
    ("I'm really glad you're sharing this with me. " ++
     "What you're going through sounds incredibly difficult, " ++
     "and I want to make sure you have the support you need. ").data
  | .CRITICAL =>
    ("I hear you, and I'm concerned about what you're sharing. " ++
     "Your safety matters deeply. ").data

/-- `get_response_suffix`. -/
def response_suffix_text (level : RiskLevel) (country_code : String) : Str :=
  if level < RiskLevel.HIGH then []
  else
    ("\n\nPlease consider reaching out to a mental health professional " ++
     "or someone you trust. You don't have to go through this alone.").data ++
    (if RiskLevel.HIGH ≤ level then
      '\n' :: EmergencyResourceResolver.format_crisis_message country_code true
    else [])

/-- `EscalationManager.modify_response`: prefix + body + suffix (the
decision's resource text overrides the suffix), stripped. -/
def modify_response (response : Str) (decision : EscalationDecision)
    (country_code : String) : Str :=
  let level := decision.current_level
  let sx :=
    match decision.resources_to_include with
    | some r => '\n' :: r
    | none => response_suffix_text level country_code
  pyStrip (response_prefix_text level ++ response ++ sx)

end EscalationManager

/-! ### SafetyPipeline (`services/safety/safety_pipeline.py`) -/

/-- `SafetyEvaluation` (identifiers, timestamps and the audit dict omitted). -/
structure SafetyEvaluation where
  risk_assessment : RiskAssessment
  crisis_detection : CrisisDetectionResult
  escalation_decision : EscalationDecision
  final_risk_level : RiskLevel := .LOW
  requires_crisis_response : Bool := false
  requires_human_review : Bool := false
  response_valid : Bool := true
  response_was_modified : Bool := false
  final_response : Str := []
deriving DecidableEq

namespace SafetyPipeline

/-- `SafetyPipeline.evaluate`.  The per-session `_session_risk_cache` is
passed explicitly as `previous_level` (the cached level for this session, if
any); the engine is constructed with thresholds `t`. -/
def evaluate (t : RiskThresholds) (clinical : ClinicalAssessment) (proposed_response : Str)
    (country_code : String) (raw_text : Option Str) (previous_level : Option RiskLevel) :
    SafetyEvaluation :=
  let risk0 := RiskScoringEngine.assess t clinical none
  let crisis_result := CrisisDetector.detect clinical
  let risk1 :=
    if crisis_result.has_crisis_signals then
      let merged := { risk0 with signals := risk0.signals ++ crisis_result.to_risk_signals }
      if crisis_result.meets_multi_signal_requirement &&
          decide (merged.risk_level < RiskLevel.HIGH) then
        { merged with risk_level := .HIGH }
      else merged
    else risk0
  let escalation := EscalationManager.evaluate risk1 country_code previous_level
  let risk2 :=
    match raw_text with
    | some text =>
      if text.isEmpty then risk1
      else
        let linguistic_signals := LinguisticCrisisAnalyzer.analyze_text text
        if !linguistic_signals.isEmpty && !escalation.should_escalate &&
            2 ≤ linguistic_signals.length then
          { risk1 with requires_human_review := true }
        else risk1
    | none => risk1
  let is_crisis_response := decide (RiskLevel.HIGH ≤ risk2.risk_level)
  let validation := SafetyValidator.validate proposed_response is_crisis_response
  let final_response :=
    EscalationManager.modify_response validation.filtered_response escalation country_code
  { risk_assessment := risk2
    crisis_detection := crisis_result
    escalation_decision := escalation
    final_risk_level := risk2.risk_level
    requires_crisis_response :=
      decide (RiskLevel.CRITICAL ≤ risk2.risk_level) || clinical.requires_crisis_protocol ||
        crisis_result.meets_multi_signal_requirement
    requires_human_review := risk2.requires_human_review || escalation.log_event.isSome
    response_valid := validation.is_safe
    response_was_modified := validation.was_modified || escalation.should_escalate
    final_response := final_response }

end SafetyPipeline

/-! ### StabilityGate (`services/safety/stability_gate.py`) -/

/-- `PanicStabilityState` (IntEnum 1–4; higher = more stable). -/
inductive PanicStabilityState
  | PANIC_CRITICAL | PANIC_ACTIVE | PANIC_STABILIZING | PANIC_RECOVERED
deriving DecidableEq

/-- The IntEnum value of a stability state. -/
def PanicStabilityState.val : PanicStabilityState → Nat
  | .PANIC_CRITICAL => 1
  | .PANIC_ACTIVE => 2
  | .PANIC_STABILIZING => 3
  | .PANIC_RECOVERED => 4

instance : LE PanicStabilityState := ⟨fun a b => a.val ≤ b.val⟩

instance : LT PanicStabilityState := ⟨fun a b => a.val < b.val⟩

instance (a b : PanicStabilityState) : Decidable (a ≤ b) :=
  inferInstanceAs (Decidable (a.val ≤ b.val))

instance (a b : PanicStabilityState) : Decidable (a < b) :=
  inferInstanceAs (Decidable (a.val < b.val))

/-- `StabilityContext`.  Session and user identifiers are omitted;
`elapsed_seconds` models the `(utcnow() - started_at).total_seconds()`
property as a field of the context at evaluation time. -/
structure StabilityContext where
  elapsed_seconds : ℚ
  current_severity : PanicSeverity
  current_intensity : ℚ
  severity_history : List PanicSeverity := []
  intensity_history : List ℚ := []
  breathing_cycles_completed : Nat := 0
  grounding_steps_completed : Nat := 0
  has_crisis_signals : Bool := false
  has_self_harm_signals : Bool := false
deriving DecidableEq

/-- `StabilityContext.has_completed_exercise`. -/
def StabilityContext.has_completed_exercise (c : StabilityContext) : Bool :=
  3 ≤ c.breathing_cycles_completed || 3 ≤ c.grounding_steps_completed

/-- `StabilityContext.severity_trend`: last minus first of the most recent
three severity values (0 with fewer than two samples). -/
def StabilityContext.severity_trend (c : StabilityContext) : ℚ :=
  if c.severity_history.length < 2 then 0
  else
    let recent := c.severity_history.drop (c.severity_history.length - 3)
    if recent.length < 2 then 0
    else
      match recent.getLast?, recent.head? with
      | some lastV, some headV => (lastV.val : ℚ) - (headV.val : ℚ)
      | _, _ => 0

/-- `StabilityContext.intensity_trend`. -/
def StabilityContext.intensity_trend (c : StabilityContext) : ℚ :=
  if c.intensity_history.length < 2 then 0
  else
    let recent := c.intensity_history.drop (c.intensity_history.length - 3)
    if recent.length < 2 then 0
    else
      match recent.getLast?, recent.head? with
      | some lastV, some headV => lastV - headV
      | _, _ => 0

/-- `StabilityEvaluation` (timestamp omitted). -/
structure StabilityEvaluation where
  state : PanicStabilityState
  reason : String
  elapsed_seconds : ℚ
  severity_trend : ℚ
  intensity_trend : ℚ
  exercise_completed : Bool
deriving DecidableEq

namespace StabilityGate

/-- `MIN_TIME_FOR_STABILIZING_SECONDS`. -/
def MIN_TIME_FOR_STABILIZING_SECONDS : ℚ := 60

/-- `MIN_TIME_FOR_RECOVERED_SECONDS`. -/
def MIN_TIME_FOR_RECOVERED_SECONDS : ℚ := 180

/-- `INTENSITY_IMPROVEMENT_THRESHOLD`. -/
def INTENSITY_IMPROVEMENT_THRESHOLD : ℚ := 0.2

/-- The common metric fields of every `StabilityEvaluation` the gate builds. -/
def mkEval (c : StabilityContext) (state : PanicStabilityState) (reason : String) :
    StabilityEvaluation :=
  { state := state
    reason := reason
    elapsed_seconds := c.elapsed_seconds
    severity_trend := c.severity_trend
    intensity_trend := c.intensity_trend
    exercise_completed := c.has_completed_exercise }

/-- `StabilityGate.evaluate`.  Reasons are the static parts of the source's
messages (interpolated numbers omitted). -/
def evaluate (c : StabilityContext) : StabilityEvaluation :=
  if c.has_crisis_signals || c.has_self_harm_signals then
    mkEval c .PANIC_CRITICAL "Crisis or self-harm signals detected"
  else if PanicSeverity.CRITICAL ≤ c.current_severity then
    mkEval c .PANIC_CRITICAL "Severity at current level"
  else if c.elapsed_seconds < MIN_TIME_FOR_STABILIZING_SECONDS then
    mkEval c .PANIC_ACTIVE "Elapsed time below stabilizing threshold"
  else if PanicSeverity.SEVERE ≤ c.current_severity && 0 ≤ c.severity_trend then
    mkEval c .PANIC_ACTIVE "Severe panic without improvement trend"
  else if c.has_completed_exercise then
    let intensity_improved :=
      2 ≤ c.intensity_history.length &&
        decide (INTENSITY_IMPROVEMENT_THRESHOLD ≤ c.intensity_history.headD 0 - c.current_intensity)
    if MIN_TIME_FOR_RECOVERED_SECONDS ≤ c.elapsed_seconds &&
        c.current_severity ≤ PanicSeverity.MILD &&
        intensity_improved &&
        decide (c.severity_trend < 0) then
      mkEval c .PANIC_RECOVERED "Sustained improvement with exercise completion"
    else
      mkEval c .PANIC_STABILIZING "Improvement with exercise completion"
  else
    mkEval c .PANIC_ACTIVE "No regulation exercise completed"

end StabilityGate

/-! ### GeminiActivationGate (`services/llm/gemini_activation_gate.py`) -/

/-- `ActivationDenialReason`. -/
inductive ActivationDenialReason
  | STABILITY_TOO_LOW | CRISIS_SIGNALS | NO_EXERCISE_COMPLETED
  | TIME_THRESHOLD_NOT_MET | GEMINI_DISABLED | ERROR_THRESHOLD_EXCEEDED
deriving DecidableEq

/-- `ActivationDecision` (timestamp omitted). -/
structure ActivationDecision where
  allowed : Bool
  reason : String
  denial_reason : Option ActivationDenialReason := none
  stability_state : Option PanicStabilityState := none
deriving DecidableEq

namespace GeminiActivationGate

/-- `MIN_STABILITY_STATE`. -/
def MIN_STABILITY_STATE : PanicStabilityState := .PANIC_STABILIZING

/-- `MIN_TIME_SECONDS`. -/
def MIN_TIME_SECONDS : ℚ := 60

/-- `ERROR_THRESHOLD`. -/
def ERROR_THRESHOLD : Nat := 3

/-- `GeminiActivationGate.is_allowed`.  The gate's mutable state is passed
explicitly: `gemini_disabled` is the kill-switch / config flag, and
`session_error_count` is `_session_error_counts.get(session_key, 0)`.
Reasons are the static parts of the source's messages. -/
def is_allowed (gemini_disabled : Bool) (session_error_count : Nat)
    (context : StabilityContext) (stability_eval : Option StabilityEvaluation) :
    ActivationDecision :=
  if gemini_disabled then
    { allowed := false
      reason := "Gemini disabled via configuration"
      denial_reason := some .GEMINI_DISABLED }
  else if ERROR_THRESHOLD ≤ session_error_count then
    { allowed := false
      reason := "Error threshold exceeded for session"
      denial_reason := some .ERROR_THRESHOLD_EXCEEDED }
  else if context.has_crisis_signals || context.has_self_harm_signals then
    { allowed := false
      reason := "Crisis or self-harm signals detected"
      denial_reason := some .CRISIS_SIGNALS }
  else if context.elapsed_seconds < MIN_TIME_SECONDS then
    { allowed := false
      reason := "Time threshold not met"
      denial_reason := some .TIME_THRESHOLD_NOT_MET }
  else if !context.has_completed_exercise then
    { allowed := false
      reason := "No regulation exercise completed"
      denial_reason := some .NO_EXERCISE_COMPLETED }
  else
    let stabilityEval := stability_eval.getD (StabilityGate.evaluate context)
    if stabilityEval.state < MIN_STABILITY_STATE then
      { allowed := false
        reason := "Stability state below required minimum"
        denial_reason := some .STABILITY_TOO_LOW
        stability_state := some stabilityEval.state }
    else
      { allowed := true
        reason := "All conditions met"
        stability_state := some stabilityEval.state }

/-- `record_error`: the session error map update, as a function on the
per-session count. -/
def record_error (count : Nat) : Nat := count + 1

end GeminiActivationGate

/-! ### DecisionEngine (`services/decision/decision_engine.py`) -/

/-- `ResponseStrategy`. -/
inductive ResponseStrategy
  | CHECK_IN | ACKNOWLEDGE | GROUND | INTERVENE | CRISIS
deriving DecidableEq

/-- `ResponseTone`. -/
inductive ResponseTone
  | WARM | CALM | DIRECT | URGENT
deriving DecidableEq

/-- `DecisionContext` (user/session identifiers and the free-form
`user_preferences` dict omitted). -/
structure DecisionContext where
  clinical_assessment : ClinicalAssessment
  session_message_count : Nat := 0
  previous_panic_count : Nat := 0
  last_intervention_used : Option String := none
deriving DecidableEq

/-- `Decision` (the free-form `prompt_modifiers` audit dict is omitted). -/
structure Decision where
  strategy : ResponseStrategy
  tone : ResponseTone
  primary_intervention : Option PanicIntervention := none
  secondary_interventions : List PanicIntervention := []
  response_constraints : List String := []
  escalate_to_crisis : Bool := false
  require_consent_check : Bool := false
deriving DecidableEq

namespace DecisionEngine

/-- `SEVERITY_INTERVENTIONS`. -/
def SEVERITY_INTERVENTIONS : PanicSeverity → List PanicIntervention
  | .NONE => []
  | .MILD => [.VALIDATION, .BREATHING_EXERCISE]
  | .MODERATE => [.BREATHING_EXERCISE, .GROUNDING_TECHNIQUE, .VALIDATION]
  | .SEVERE => [.GROUNDING_TECHNIQUE, .BREATHING_EXERCISE, .PROGRESSIVE_RELAXATION,
                .PROFESSIONAL_REFERRAL]
  | .CRITICAL => [.CRISIS_RESOURCES, .GROUNDING_TECHNIQUE, .PROFESSIONAL_REFERRAL]

/-- `SEVERITY_STRATEGY`. -/
def SEVERITY_STRATEGY : PanicSeverity → ResponseStrategy
  | .NONE => .CHECK_IN
  | .MILD => .ACKNOWLEDGE
  | .MODERATE => .GROUND
  | .SEVERE => .INTERVENE
  | .CRITICAL => .CRISIS

/-- `SEVERITY_TONE`. -/
def SEVERITY_TONE : PanicSeverity → ResponseTone
  | .NONE => .WARM
  | .MILD => .WARM
  | .MODERATE => .CALM
  | .SEVERE => .CALM
  | .CRITICAL => .DIRECT

/-- `UNIVERSAL_CONSTRAINTS`. -/
def UNIVERSAL_CONSTRAINTS : List String :=
  ["NEVER provide medical diagnosis",
   "NEVER prescribe medication or dosages",
   "NEVER claim to be a replacement for professional help",
   "NEVER minimize user's experience",
   "ALWAYS validate user's feelings",
   "ALWAYS use trauma-informed language"]

/-- `_adjust_tone_for_emotions`. -/
def adjust_tone_for_emotions (base_tone : ResponseTone) (assessment : ClinicalAssessment) :
    ResponseTone :=
  let ep := assessment.emotion_profile
  match ep.dominant_emotion with
  | none => base_tone
  | some dominant =>
    if dominant == EmotionCategory.DISSOCIATION then .DIRECT
    else if dominant == EmotionCategory.LOSS_OF_CONTROL then .CALM
    else if 0.7 < ep.emotional_volatility then .CALM
    else base_tone

/-- `_crisis_decision` (its `context` argument is used only for logging). -/
def crisis_decision : Decision :=
  { strategy := .CRISIS
    tone := .DIRECT
    primary_intervention := some .CRISIS_RESOURCES
    secondary_interventions := [.GROUNDING_TECHNIQUE, .PROFESSIONAL_REFERRAL]
    response_constraints :=
      UNIVERSAL_CONSTRAINTS ++
      ["MUST provide crisis hotline number",
       "MUST recommend immediate professional help",
       "Response MUST be clear and actionable"]
    escalate_to_crisis := true }

/-- `_select_interventions`. -/
def select_interventions (severity : PanicSeverity) (last_intervention : Option String)
    (triggers : List PanicTrigger) : List PanicIntervention :=
  let base := SEVERITY_INTERVENTIONS severity
  let base :=
    match last_intervention with
    | some s =>
      if s.isEmpty then base
      else
        match PanicIntervention.fromStr s with
        | some lastI => if base.contains lastI then lastI :: base.erase lastI else base
        | none => base
    | none => base
  if triggers.contains PanicTrigger.HEALTH_ANXIETY &&
      base.contains PanicIntervention.GROUNDING_TECHNIQUE then
    PanicIntervention.GROUNDING_TECHNIQUE :: base.erase PanicIntervention.GROUNDING_TECHNIQUE
  else base

/-- `_build_constraints`. -/
def build_constraints (severity : PanicSeverity) : List String :=
  UNIVERSAL_CONSTRAINTS ++
  (if PanicSeverity.MODERATE ≤ severity then
    ["Keep response focused and concise", "Avoid lengthy explanations during crisis"]
  else []) ++
  (if PanicSeverity.SEVERE ≤ severity then
    ["Include option for professional help", "Use simple, clear language"]
  else [])

/-- `DecisionEngine.decide`. -/
def decide (context : DecisionContext) : Decision :=
  let assessment := context.clinical_assessment
  let severity := assessment.severity.predicted_severity
  if assessment.requires_crisis_protocol then crisis_decision
  else
    let strategy := SEVERITY_STRATEGY severity
    let tone := adjust_tone_for_emotions (SEVERITY_TONE severity) assessment
    let triggers :=
      PanicTrigger.UNKNOWN ::
        assessment.trigger_analysis.immediate_triggers.filterMap PanicTrigger.fromStr
    let interventions := select_interventions severity context.last_intervention_used triggers
    { strategy := strategy
      tone := tone
      primary_intervention := interventions.head?
      secondary_interventions := interventions.drop 1
      response_constraints := build_constraints severity
      escalate_to_crisis := PanicSeverity.SEVERE.val ≤ severity.val
      require_consent_check := assessment.requires_human_review }

end DecisionEngine

/-! ### Concrete inputs and spec-side definitions for the claims -/

/-- Witness context for C3: three signals over two signal types. -/
def c3SignalsThreeTwoTypes : List RiskSignal :=
  [⟨.BEHAVIORAL, "severity_critical", "", 0.35, 1, "t"⟩,
   ⟨.EMOTIONAL, "emotion_dread", "", 0.2, 1, "t"⟩,
   ⟨.BEHAVIORAL, "high_distress", "", 0.2, 1, "t"⟩]

/-- Witness context for C3: a single signal. -/
def c3SignalsOne : List RiskSignal :=
  [⟨.BEHAVIORAL, "severity_critical", "", 0.35, 1, "t"⟩]

/-- Witness context for C5: crisis signals at MILD severity. -/
def c5CrisisMildContext : StabilityContext :=
  { elapsed_seconds := 200
    current_severity := .MILD
    current_intensity := 0.5
    has_crisis_signals := true }

/-- Modelled from the spec: the six activation conditions, as C1 words them
(kill-switch off, session error count < 3, no crisis/self-harm signals,
elapsed time ≥ 60s, a regulation exercise completed, stability state ≥
PANIC_STABILIZING), for the entry path that computes the stability state from
the context. -/
def specActivationConditions (gemini_disabled : Bool) (error_count : Nat)
    (c : StabilityContext) : Prop :=
  gemini_disabled = false ∧ error_count < 3 ∧
  c.has_crisis_signals = false ∧ c.has_self_harm_signals = false ∧
  60 ≤ c.elapsed_seconds ∧ c.has_completed_exercise = true ∧
  PanicStabilityState.PANIC_STABILIZING ≤ (StabilityGate.evaluate c).state

/-- Modelled from the spec: the first failing check, in the spec's priority
order (kill-switch → error count → crisis signals → time → exercise →
stability), as the reported denial reason. -/
def specFirstFailingReason (gemini_disabled : Bool) (error_count : Nat)
    (c : StabilityContext) : Option ActivationDenialReason :=
  if gemini_disabled then some .GEMINI_DISABLED
  else if 3 ≤ error_count then some .ERROR_THRESHOLD_EXCEEDED
  else if c.has_crisis_signals || c.has_self_harm_signals then some .CRISIS_SIGNALS
  else if c.elapsed_seconds < 60 then some .TIME_THRESHOLD_NOT_MET
  else if !c.has_completed_exercise then some .NO_EXERCISE_COMPLETED
  else if (StabilityGate.evaluate c).state < PanicStabilityState.PANIC_STABILIZING then
    some .STABILITY_TOO_LOW
  else none

/-- Scenario context for C1: 30 seconds elapsed, all other preconditions
satisfied. -/
def c1ContextElapsed30 : StabilityContext :=
  { elapsed_seconds := 30
    current_severity := .MILD
    current_intensity := 0.3
    breathing_cycles_completed := 3 }

/-- Scenario context for C1: the same context at 120 seconds elapsed. -/
def c1ContextElapsed120 : StabilityContext :=
  { elapsed_seconds := 120
    current_severity := .MILD
    current_intensity := 0.3
    breathing_cycles_completed := 3 }

/-- Hard-constraint example input of C6. -/
def c6XanaxInput : Str :=
  "You should take 0.5mg of Xanax".data

/-- The concrete clinical assessment of C7: severity CRITICAL at confidence
0.9 and nothing else contributing. -/
def c7CriticalAssessment : ClinicalAssessment :=
  mkClinicalAssessment (mkSeverityClassification .CRITICAL [] 0.9 false)
    (mkEmotionProfile [] none 0) {} {} false false 0.9 []

/-- A clinical assessment carrying no risk or crisis signals at all (risk
level LOW), used by C9. -/
def c9LowAssessment : ClinicalAssessment :=
  mkClinicalAssessment (mkSeverityClassification .NONE [] 1 false)
    (mkEmotionProfile [] none 0) {} {} false false 1 []

/-- The C9 counterexample's pipeline evaluation: a proposed response whose
soft-filtered form re-triggers a hard constraint. -/
def c9Evaluation : SafetyEvaluation :=
  SafetyPipeline.evaluate defaultRiskThresholds c9LowAssessment
    "take definitely 500 mg".data "US" none none

/-! ### Helper lemmas -/

/-- A list whose elements all equal `c` deduplicates to at most one element. -/
theorem dedup_length_le_one_of_const {α : Type} [DecidableEq α] (c : α) :
    ∀ l : List α, (∀ x ∈ l, x = c) → l.dedup.length ≤ 1
  | [], _ => by simp
  | x :: t, h => by
    have hx : x = c := h x (by simp)
    by_cases hm : x ∈ t
    · rw [List.dedup_cons_of_mem hm]
      exact dedup_length_le_one_of_const c t fun y hy => h y (by simp [hy])
    · rw [List.dedup_cons_of_not_mem hm]
      cases t with
      | nil => simp
      | cons y ty =>
        exact absurd (show x ∈ y :: ty from by
          rw [hx, ← h y (by simp)]; exact List.mem_cons_self y ty) hm

/-- When some hard-constraint pattern matches, the hard-violation list of
`validate` contains a block-severity entry. -/
theorem hard_filterMap_any_block (s : Str) :
    ∀ l : List (String × Regex × String),
      l.any (fun p => p.2.1.search s) = true →
      (l.filterMap fun p => (p.2.1.findFirst s).map fun m =>
          (⟨p.1, p.2.2, m, "block"⟩ : SafetyViolation)).any
        (fun v => v.severity == "block") = true
  | [], h => by simp at h
  | p :: t, h => by
    simp only [List.filterMap_cons]
    cases hf : p.2.1.findFirst s with
    | some m => simp
    | none =>
      have ht : t.any (fun q => q.2.1.search s) = true := by
        simpa [Regex.search, hf] using h
      simpa [hf] using hard_filterMap_any_block s t ht

/-- When no hard-constraint pattern matches, the hard-violation list of
`validate` is empty. -/
theorem hard_filterMap_eq_nil (s : Str) :
    ∀ l : List (String × Regex × String),
      l.any (fun p => p.2.1.search s) = false →
      (l.filterMap fun p => (p.2.1.findFirst s).map fun m =>
          (⟨p.1, p.2.2, m, "block"⟩ : SafetyViolation)) = []
  | [], _ => rfl
  | p :: t, h => by
    simp only [List.any_cons, Bool.or_eq_false_iff] at h
    have hf : p.2.1.findFirst s = none := by
      have hs := h.1
      unfold Regex.search at hs
      exact Option.not_isSome_iff_eq_none.mp (by simp [hs])
    simp only [List.filterMap_cons, hf]
    exact hard_filterMap_eq_nil s t (by simp [h.2])

/-- The soft-filter loop only ever appends warning-severity violations. -/
theorem foldl_filterStep_warning :
    ∀ (ps : List (String × Regex × String)) (acc : List SafetyViolation × Str),
      (∀ v ∈ acc.1, v.severity = "warning") →
      ∀ v ∈ (ps.foldl SafetyValidator.filterStep acc).1, v.severity = "warning"
  | [], _, h => h
  | p :: t, acc, h => by
    simp only [List.foldl_cons]
    apply foldl_filterStep_warning t
    unfold SafetyValidator.filterStep
    cases hf : p.2.1.findFirst acc.2 with
    | some m =>
      intro v hv
      simp only [List.mem_append, List.mem_singleton] at hv
      rcases hv with hv | rfl
      · exact h v hv
      · rfl
    | none => exact h

/-- The fallback text is not empty. -/
theorem fallback_isEmpty_false : SafetyValidator.FALLBACK_RESPONSE.isEmpty = false := by
  decide

/-- A validation that is not safe was blocked: its filtered response is the
fixed fallback text and its `blocked` flag is set. -/
theorem validate_not_safe_filtered_fallback (s : Str) (b : Bool)
    (h : (SafetyValidator.validate s b).is_safe = false) :
    (SafetyValidator.validate s b).filtered_response =
      SafetyValidator.FALLBACK_RESPONSE ∧
    (SafetyValidator.validate s b).blocked = true := by
  have hwarn : ∀ v ∈ (SafetyValidator.FILTER_PATTERNS.foldl SafetyValidator.filterStep
      ([], s)).1, v.severity = "warning" :=
    foldl_filterStep_warning _ _ (by intro v hv; simp at hv)
  simp only [SafetyValidator.validate] at h ⊢
  split_ifs at h ⊢ with h1 h2 hb hm
  · exact ⟨by simp [mkSafetyResult, fallback_isEmpty_false], rfl⟩
  · exact ⟨by simp [mkSafetyResult, fallback_isEmpty_false], rfl⟩
  all_goals exfalso
  all_goals
    have hhard : (SafetyValidator.HARD_CONSTRAINT_PATTERNS.filterMap fun p =>
        (p.2.1.findFirst s).map fun m =>
          (⟨p.1, p.2.2, m, "block"⟩ : SafetyViolation)) = [] := by
      apply hard_filterMap_eq_nil
      cases hany : SafetyValidator.HARD_CONSTRAINT_PATTERNS.any
        (fun p => p.2.1.search s)
      · rfl
      · exact absurd (hard_filterMap_any_block s _ hany) h2
  all_goals rw [hhard] at h
  all_goals simp only [mkSafetyResult] at h
  · rw [List.filter_eq_nil_iff.mpr (fun v hv hvb => by
      have hv2 := hwarn v hv
      simp [hv2] at hvb)] at h
    simp at h
  · rw [List.filter_eq_nil_iff.mpr (fun v hv hvb => by
      have hv2 : v.severity = "warning" := by
        rcases List.mem_append.mp hv with hv | hv
        · exact hwarn v hv
        · rw [List.mem_singleton.mp hv]
      simp [hv2] at hvb)] at h
    simp at h
  · rw [List.filter_eq_nil_iff.mpr (fun v hv hvb => by
      have hv2 := hwarn v hv
      simp [hv2] at hvb)] at h
    simp at h

/-- A country code that is none of the built-in keys resolves to no built-in
jurisdiction table. -/
theorem builtinLookup_eq_none (cc : String)
    (h1 : (cc == "US") = false) (h2 : (cc == "GB") = false) (h3 : (cc == "SA") = false)
    (h4 : (cc == "AE") = false) (h5 : (cc == "EG") = false) :
    EmergencyResourceResolver.builtinLookup cc = none := by
  unfold EmergencyResourceResolver.builtinLookup
  rw [h1, h2, h3, h4, h5]
  rfl

/-- An unknown country code formats the same crisis message as any other
unknown code: the international fallback resources. -/
theorem format_crisis_message_unknown (cc : String)
    (h : EmergencyResourceResolver.builtinLookup cc = none) :
    ∀ flag : Bool, EmergencyResourceResolver.format_crisis_message cc flag =
      EmergencyResourceResolver.format_crisis_message "" flag := by
  intro flag
  simp only [EmergencyResourceResolver.format_crisis_message,
    EmergencyResourceResolver.get_resources]
  rw [h]
  rfl

set_option maxHeartbeats 16000000 in
/-- The blocked-fallback wrap carries no hard match in the US jurisdiction. -/
theorem modify_fallback_clean_us (risk : RiskAssessment) (prev : Option RiskLevel) :
    SafetyValidator.anyHardMatch
      (EscalationManager.modify_response SafetyValidator.FALLBACK_RESPONSE
        (EscalationManager.evaluate risk "US" prev) "US") = false := by
  rcases hl : risk.risk_level <;>
    simp only [EscalationManager.evaluate, EscalationManager.modify_response, hl] <;>
    decide

set_option maxHeartbeats 16000000 in
/-- The blocked-fallback wrap carries no hard match in the GB jurisdiction. -/
theorem modify_fallback_clean_gb (risk : RiskAssessment) (prev : Option RiskLevel) :
    SafetyValidator.anyHardMatch
      (EscalationManager.modify_response SafetyValidator.FALLBACK_RESPONSE
        (EscalationManager.evaluate risk "GB" prev) "GB") = false := by
  rcases hl : risk.risk_level <;>
    simp only [EscalationManager.evaluate, EscalationManager.modify_response, hl] <;>
    decide

set_option maxHeartbeats 16000000 in
/-- The blocked-fallback wrap carries no hard match in the SA jurisdiction. -/
theorem modify_fallback_clean_sa (risk : RiskAssessment) (prev : Option RiskLevel) :
    SafetyValidator.anyHardMatch
      (EscalationManager.modify_response SafetyValidator.FALLBACK_RESPONSE
        (EscalationManager.evaluate risk "SA" prev) "SA") = false := by
  rcases hl : risk.risk_level <;>
    simp only [EscalationManager.evaluate, EscalationManager.modify_response, hl] <;>
    decide

set_option maxHeartbeats 16000000 in
/-- The blocked-fallback wrap carries no hard match in the AE jurisdiction. -/
theorem modify_fallback_clean_ae (risk : RiskAssessment) (prev : Option RiskLevel) :
    SafetyValidator.anyHardMatch
      (EscalationManager.modify_response SafetyValidator.FALLBACK_RESPONSE
        (EscalationManager.evaluate risk "AE" prev) "AE") = false := by
  rcases hl : risk.risk_level <;>
    simp only [EscalationManager.evaluate, EscalationManager.modify_response, hl] <;>
    decide

set_option maxHeartbeats 16000000 in
/-- The blocked-fallback wrap carries no hard match in the EG jurisdiction. -/
theorem modify_fallback_clean_eg (risk : RiskAssessment) (prev : Option RiskLevel) :
    SafetyValidator.anyHardMatch
      (EscalationManager.modify_response SafetyValidator.FALLBACK_RESPONSE
        (EscalationManager.evaluate risk "EG" prev) "EG") = false := by
  rcases hl : risk.risk_level <;>
    simp only [EscalationManager.evaluate, EscalationManager.modify_response, hl] <;>
    decide

set_option maxHeartbeats 16000000 in
/-- The blocked-fallback wrap carries no hard match for any country code outside
the built-in jurisdiction table (the international fallback resources). -/
theorem modify_fallback_clean_default (risk : RiskAssessment) (country_code : String)
    (prev : Option RiskLevel) (h1 : country_code ≠ "US") (h2 : country_code ≠ "GB")
    (h3 : country_code ≠ "SA") (h4 : country_code ≠ "AE") (h5 : country_code ≠ "EG") :
    SafetyValidator.anyHardMatch
      (EscalationManager.modify_response SafetyValidator.FALLBACK_RESPONSE
        (EscalationManager.evaluate risk country_code prev) country_code) = false := by
  have hnone := builtinLookup_eq_none country_code
    (beq_eq_false_iff_ne.mpr h1) (beq_eq_false_iff_ne.mpr h2) (beq_eq_false_iff_ne.mpr h3)
    (beq_eq_false_iff_ne.mpr h4) (beq_eq_false_iff_ne.mpr h5)
  rcases hl : risk.risk_level <;>
    simp only [EscalationManager.evaluate, EscalationManager.modify_response, hl,
      EscalationManager.response_suffix_text,
      format_crisis_message_unknown country_code hnone] <;>
    decide

/-- For any risk assessment, jurisdiction and previous level, wrapping the
fallback text in the escalation manager's level-specific prefix/suffix (with
the jurisdiction's resources, or the international fallback for an unknown
code) yields no hard-constraint match. -/
theorem modify_fallback_no_hard_match (risk : RiskAssessment) (country_code : String)
    (prev : Option RiskLevel) :
    SafetyValidator.anyHardMatch
      (EscalationManager.modify_response SafetyValidator.FALLBACK_RESPONSE
        (EscalationManager.evaluate risk country_code prev) country_code) = false := by
  by_cases h1 : country_code = "US"
  · subst h1; exact modify_fallback_clean_us risk prev
  by_cases h2 : country_code = "GB"
  · subst h2; exact modify_fallback_clean_gb risk prev
  by_cases h3 : country_code = "SA"
  · subst h3; exact modify_fallback_clean_sa risk prev
  by_cases h4 : country_code = "AE"
  · subst h4; exact modify_fallback_clean_ae risk prev
  by_cases h5 : country_code = "EG"
  · subst h5; exact modify_fallback_clean_eg risk prev
  exact modify_fallback_clean_default risk country_code prev h1 h2 h3 h4 h5

/-! ### The claims -/

/-- C1: the activation gate allows Gemini exactly when all six conditions
hold; the checks run in the spec's priority order, the first failing check
determining the reported denial reason; at 30s elapsed with all other
preconditions satisfied the gate denies with TIME_THRESHOLD_NOT_MET, and the
same context at 120s elapsed with ≥3 breathing cycles is allowed. -/
theorem C1_activation_gate_checks (gemini_disabled : Bool) (error_count : Nat)
    (c : StabilityContext) :
    ((GeminiActivationGate.is_allowed gemini_disabled error_count c none).allowed = true ↔
      specActivationConditions gemini_disabled error_count c) ∧
    (GeminiActivationGate.is_allowed gemini_disabled error_count c none).denial_reason =
      specFirstFailingReason gemini_disabled error_count c ∧
    (GeminiActivationGate.is_allowed false 0 c1ContextElapsed30 none).allowed = false ∧
    (GeminiActivationGate.is_allowed false 0 c1ContextElapsed30 none).denial_reason =
      some ActivationDenialReason.TIME_THRESHOLD_NOT_MET ∧
    (GeminiActivationGate.is_allowed false 0 c1ContextElapsed120 none).allowed = true := by
  refine ⟨?_, ?_, by decide, by decide, by decide⟩
  · unfold GeminiActivationGate.is_allowed specActivationConditions
    simp only [GeminiActivationGate.ERROR_THRESHOLD, GeminiActivationGate.MIN_TIME_SECONDS,
      GeminiActivationGate.MIN_STABILITY_STATE, Option.getD_none]
    split_ifs with h1 h2 h3 h4 h5 h6
    · simp_all
    · simp_all
    · simp_all
      intro hcf hsf _ _
      rcases h3 with h | h <;> simp_all
    · simp_all
    · simp_all
    · simp_all
      intro hle
      exact absurd h6 (Nat.not_lt.mpr hle)
    · simp_all
      exact Nat.le_of_not_lt h6
  · unfold GeminiActivationGate.is_allowed specFirstFailingReason
    simp only [GeminiActivationGate.ERROR_THRESHOLD, GeminiActivationGate.MIN_TIME_SECONDS,
      GeminiActivationGate.MIN_STABILITY_STATE, Option.getD_none]
    split_ifs <;> rfl

/-- C2: every clinical assessment whose predicted severity is CRITICAL has
`requires_crisis_protocol = true`, and `DecisionEngine.decide` on any context
wrapping it returns the fixed crisis decision: strategy CRISIS, tone DIRECT,
primary intervention crisis-resources, and constraints including that a
crisis hotline number must be provided. -/
theorem C2_critical_crisis_decision (sev : SeverityClassification) (ep : EmotionProfile)
    (di : DistressIndicators) (ta : TriggerAnalysis) (rcp rhr : Bool) (cs : ℚ)
    (uf : List String) (smc ppc : Nat) (liu : Option String)
    (h : sev.predicted_severity = PanicSeverity.CRITICAL) :
    (mkClinicalAssessment sev ep di ta rcp rhr cs uf).requires_crisis_protocol = true ∧
    DecisionEngine.decide ⟨mkClinicalAssessment sev ep di ta rcp rhr cs uf, smc, ppc, liu⟩ =
      DecisionEngine.crisis_decision ∧
    (DecisionEngine.decide ⟨mkClinicalAssessment sev ep di ta rcp rhr cs uf,
        smc, ppc, liu⟩).strategy = ResponseStrategy.CRISIS ∧
    (DecisionEngine.decide ⟨mkClinicalAssessment sev ep di ta rcp rhr cs uf,
        smc, ppc, liu⟩).tone = ResponseTone.DIRECT ∧
    (DecisionEngine.decide ⟨mkClinicalAssessment sev ep di ta rcp rhr cs uf,
        smc, ppc, liu⟩).primary_intervention = some PanicIntervention.CRISIS_RESOURCES ∧
    "MUST provide crisis hotline number" ∈
      (DecisionEngine.decide ⟨mkClinicalAssessment sev ep di ta rcp rhr cs uf,
        smc, ppc, liu⟩).response_constraints := by
  have hc : (mkClinicalAssessment sev ep di ta rcp rhr cs uf).requires_crisis_protocol = true := by
    simp [mkClinicalAssessment, h]
    exact Or.inr (by decide)
  have hd : DecisionEngine.decide ⟨mkClinicalAssessment sev ep di ta rcp rhr cs uf,
      smc, ppc, liu⟩ = DecisionEngine.crisis_decision := by
    unfold DecisionEngine.decide
    simp [hc]
  refine ⟨hc, hd, ?_, ?_, ?_, ?_⟩ <;> rw [hd] <;> decide

/-- C2 witness: a concrete CRITICAL assessment is decided as CRISIS. -/
theorem C2_critical_crisis_decision_witness :
    (mkClinicalAssessment (mkSeverityClassification .CRITICAL [] 0.9 false)
      (mkEmotionProfile [] none 0) {} {} false false 0.9 []).requires_crisis_protocol = true ∧
    DecisionEngine.decide ⟨mkClinicalAssessment (mkSeverityClassification .CRITICAL [] 0.9 false)
        (mkEmotionProfile [] none 0) {} {} false false 0.9 [], 0, 0, none⟩ =
      DecisionEngine.crisis_decision := by
  have h := C2_critical_crisis_decision (mkSeverityClassification .CRITICAL [] 0.9 false)
    (mkEmotionProfile [] none 0) {} {} false false 0.9 [] 0 0 none (by decide)
  exact ⟨h.1, h.2.1⟩

/-- C3: with the default thresholds, a risk score at or above the CRITICAL
threshold (0.85) classifies as CRITICAL exactly when at least 3 signals
spanning at least 2 distinct signal types are present; otherwise the level is
downgraded to HIGH. -/
theorem C3_critical_multisignal_guard (score : ℚ) (signals : List RiskSignal)
    (h : (0.85 : ℚ) ≤ score) :
    (RiskScoringEngine.classify_risk_level defaultRiskThresholds score signals =
        RiskLevel.CRITICAL ↔
      3 ≤ signals.length ∧ 2 ≤ (signals.map RiskSignal.signal_type).dedup.length) ∧
    (¬(3 ≤ signals.length ∧ 2 ≤ (signals.map RiskSignal.signal_type).dedup.length) →
      RiskScoringEngine.classify_risk_level defaultRiskThresholds score signals =
        RiskLevel.HIGH) := by
  unfold RiskScoringEngine.classify_risk_level
  have hc : defaultRiskThresholds.critical_threshold ≤ score := h
  rw [if_pos hc]
  by_cases h1 : defaultRiskThresholds.min_signals_for_critical ≤ signals.length
  · rw [if_pos h1]
    by_cases h2 : 2 ≤ (signals.map RiskSignal.signal_type).dedup.length
    · have : (!defaultRiskThresholds.require_multi_signal_types ||
          decide (2 ≤ (signals.map RiskSignal.signal_type).dedup.length)) = true := by
        simp [defaultRiskThresholds, h2]
      rw [if_pos this]
      constructor
      · constructor
        · intro _; exact ⟨h1, h2⟩
        · intro _; rfl
      · intro hn; exact absurd ⟨h1, h2⟩ hn
    · have : ¬((!defaultRiskThresholds.require_multi_signal_types ||
          decide (2 ≤ (signals.map RiskSignal.signal_type).dedup.length)) = true) := by
        simp [defaultRiskThresholds, h2]
      rw [if_neg this]
      constructor
      · constructor
        · intro hx; cases hx
        · intro hx; exact absurd hx.2 h2
      · intro _; rfl
  · rw [if_neg h1]
    constructor
    · constructor
      · intro hx; cases hx
      · intro hx; exact absurd hx.1 h1
    · intro _; rfl

/-- C3 witness: at score 0.9, three signals over two types give CRITICAL and a
single signal gives HIGH. -/
theorem C3_critical_multisignal_guard_witness :
    RiskScoringEngine.classify_risk_level defaultRiskThresholds 0.9 c3SignalsThreeTwoTypes =
      RiskLevel.CRITICAL ∧
    RiskScoringEngine.classify_risk_level defaultRiskThresholds 0.9 c3SignalsOne =
      RiskLevel.HIGH :=
  ⟨(C3_critical_multisignal_guard 0.9 c3SignalsThreeTwoTypes (by decide)).1.mpr (by decide),
   (C3_critical_multisignal_guard 0.9 c3SignalsOne (by decide)).2 (by decide)⟩

/-- C4: a crisis-detection result meets the multi-signal requirement exactly
when its signals span at least two distinct categories; signals all from one
category never meet it, regardless of the combined score. -/
theorem C4_multi_signal_two_categories (has_signals : Bool) (signals : List CrisisSignal)
    (score : ℚ) :
    ((mkCrisisDetectionResult has_signals signals score).meets_multi_signal_requirement = true ↔
      2 ≤ (signals.map CrisisSignal.category).dedup.length) ∧
    ∀ cat : String, (∀ s ∈ signals, s.category = cat) →
      (mkCrisisDetectionResult has_signals signals score).meets_multi_signal_requirement =
        false := by
  constructor
  · simp [mkCrisisDetectionResult]
  · intro cat hall
    have hle : (signals.map CrisisSignal.category).dedup.length ≤ 1 := by
      apply dedup_length_le_one_of_const cat
      intro x hx
      rcases List.mem_map.mp hx with ⟨s, hs, rfl⟩
      exact hall s hs
    simp only [mkCrisisDetectionResult]
    simp only [decide_eq_false_iff_not]
    omega

/-- C5: crisis or self-harm signals force the stability state to
PANIC_CRITICAL, regardless of severity, elapsed time, trends or exercise
completion. -/
theorem C5_crisis_overrides_stability (c : StabilityContext)
    (h : c.has_crisis_signals = true ∨ c.has_self_harm_signals = true) :
    (StabilityGate.evaluate c).state = PanicStabilityState.PANIC_CRITICAL := by
  unfold StabilityGate.evaluate
  have hb : (c.has_crisis_signals || c.has_self_harm_signals) = true := by
    rcases h with h | h <;> simp [h]
  simp [hb, StabilityGate.mkEval]

/-- C5 witness: a MILD-severity context with crisis signals evaluates to
PANIC_CRITICAL. -/
theorem C5_crisis_overrides_stability_witness :
    (StabilityGate.evaluate c5CrisisMildContext).state =
      PanicStabilityState.PANIC_CRITICAL :=
  C5_crisis_overrides_stability c5CrisisMildContext (Or.inl rfl)

/-- C8: with a supplied previous level, the escalation manager records an
audit event exactly when the level rose or the current level is HIGH or
above; and at risk level HIGH with country "US" the decision carries the
formatted resource text, which contains the US crisis hotline name. -/
theorem C8_escalation_event_iff (risk : RiskAssessment) (prev : RiskLevel)
    (country_code : String) :
    ((EscalationManager.evaluate risk country_code (some prev)).log_event.isSome = true ↔
      (prev < risk.risk_level ∨ RiskLevel.HIGH ≤ risk.risk_level)) ∧
    ∀ prevOpt : Option RiskLevel, risk.risk_level = RiskLevel.HIGH →
      (EscalationManager.evaluate risk "US" prevOpt).resources_to_include =
        some (EmergencyResourceResolver.format_crisis_message "US" false) ∧
      containsSubstr (EmergencyResourceResolver.format_crisis_message "US" false)
        "988 Suicide & Crisis Lifeline".data = true := by
  constructor
  · simp only [EscalationManager.evaluate]
    by_cases hA : (decide (prev < risk.risk_level) || decide (RiskLevel.HIGH ≤ risk.risk_level))
      = true
    · rw [if_pos hA]
      simp only [Option.isSome_some, true_iff]
      simpa [Bool.or_eq_true, decide_eq_true_iff] using hA
    · rw [if_neg hA]
      simp only [Option.isSome_none, false_iff]
      simpa [Bool.or_eq_true, decide_eq_true_iff] using hA
  · intro prevOpt h
    constructor
    · simp only [EscalationManager.evaluate, h]
      rfl
    · decide

/-- C6: the validator never returns an empty filtered response; a
hard-constraint match always blocks and substitutes the fixed fallback text;
the fallback itself matches no hard-constraint pattern; and on the example
input the filtered response contains neither "Xanax" nor "mg". -/
theorem C6_validator_block_guarantees (s : Str) (b : Bool) :
    (SafetyValidator.validate s b).filtered_response ≠ [] ∧
    (SafetyValidator.anyHardMatch s = true →
      (SafetyValidator.validate s b).blocked = true ∧
      (SafetyValidator.validate s b).filtered_response =
        SafetyValidator.FALLBACK_RESPONSE) ∧
    SafetyValidator.anyHardMatch SafetyValidator.FALLBACK_RESPONSE = false ∧
    (SafetyValidator.validate c6XanaxInput false).blocked = true ∧
    containsSubstr (SafetyValidator.validate c6XanaxInput false).filtered_response
      "Xanax".data = false ∧
    containsSubstr (SafetyValidator.validate c6XanaxInput false).filtered_response
      "mg".data = false := by
  refine ⟨?_, ?_, by decide, by decide, by decide, by decide⟩
  · simp only [SafetyValidator.validate]
    split_ifs with h1 h2 hb hm <;>
      simp only [mkSafetyResult] <;>
      split_ifs with hf
    · exact absurd hf (by simp [fallback_isEmpty_false])
    · exact fun hx => by rw [hx] at hf; simp at hf
    · exact absurd hf (by simp [fallback_isEmpty_false])
    · exact fun hx => by rw [hx] at hf; simp at hf
    all_goals first
      | (intro hx
         rw [hx] at h1
         simp at h1)
      | (intro hx
         rw [hx] at hf
         simp at hf)
  · intro hm2
    simp only [SafetyValidator.validate]
    split_ifs with h1 h2
    · exact ⟨rfl, by simp [mkSafetyResult, fallback_isEmpty_false]⟩
    · exact ⟨rfl, by simp [mkSafetyResult, fallback_isEmpty_false]⟩
    all_goals exact absurd (hard_filterMap_any_block s _ hm2) h2

/-- C7 counterexample: the scenario of the claim (severity CRITICAL at
confidence 0.9, nothing else contributing) yields two behavioral signals, not
one, and risk level LOW, not HIGH: `ClinicalAssessment.__post_init__` forces
the crisis-protocol flag at CRITICAL severity, adding a second signal, and
the normalized score 143/470 is far below every threshold. -/
theorem C7_counterexample_two_signals_not_high :
    (RiskScoringEngine.assess defaultRiskThresholds c7CriticalAssessment none).signals.length
      = 2 ∧
    (RiskScoringEngine.assess defaultRiskThresholds c7CriticalAssessment none).risk_level
      = RiskLevel.LOW ∧
    ¬((RiskScoringEngine.assess defaultRiskThresholds c7CriticalAssessment none).signals.length
        = 1) ∧
    ¬((RiskScoringEngine.assess defaultRiskThresholds c7CriticalAssessment none).risk_level
        = RiskLevel.HIGH) := by
  decide

/-- C7 (amended): a clinical assessment with severity CRITICAL at confidence
0.9 and no other contributing signals produces exactly two behavioral risk
signals in `assess` — `severity_critical` plus the automatically forced
`crisis_protocol_active` — and the resulting risk level is LOW (the
normalized risk score 143/470 ≈ 0.304 is below the ELEVATED threshold). -/
theorem C7_amended_two_behavioral_signals_low :
    ((RiskScoringEngine.assess defaultRiskThresholds c7CriticalAssessment none).signals.map
        RiskSignal.signal_name) = ["severity_critical", "crisis_protocol_active"] ∧
    ((RiskScoringEngine.assess defaultRiskThresholds c7CriticalAssessment none).signals.map
        RiskSignal.signal_type) = [.BEHAVIORAL, .BEHAVIORAL] ∧
    (RiskScoringEngine.assess defaultRiskThresholds c7CriticalAssessment none).risk_score
      = 143/470 ∧
    (RiskScoringEngine.assess defaultRiskThresholds c7CriticalAssessment none).risk_level
      = RiskLevel.LOW := by
  decide

/-- C9 counterexample: for the proposed response "take definitely 500 mg"
(which passes validation — only the soft certainty filter fires) the
pipeline's final response is "take 500 mg", and feeding that back into
`SafetyValidator.validate` alone finds a hard-constraint (block-severity)
violation: the stripped word plus space-collapsing creates a
MEDICATION_ADVICE match. -/
theorem C9_counterexample_roundtrip :
    (SafetyValidator.validate "take definitely 500 mg".data false).blocked = false ∧
    c9Evaluation.final_response = "take 500 mg".data ∧
    SafetyValidator.anyHardMatch c9Evaluation.final_response = true ∧
    (SafetyValidator.validate c9Evaluation.final_response false).blocked = true ∧
    ((SafetyValidator.validate c9Evaluation.final_response false).violations.filter
        (fun v => v.severity == "block")).length = 1 := by
  decide

/-- C9 (amended): whenever the pipeline's validator rejected the proposed
response (so the body of the final response is the fixed fallback text),
feeding the evaluation's final response — prefix + fallback + suffix with the
jurisdiction's resources — back into `SafetyValidator.validate` alone yields
no hard-constraint (block-severity) match, for every country code. -/
theorem C9_amended_blocked_roundtrip (t : RiskThresholds) (clinical : ClinicalAssessment)
    (proposed : Str) (country_code : String) (raw : Option Str) (prev : Option RiskLevel)
    (hb : (SafetyPipeline.evaluate t clinical proposed country_code raw prev).response_valid
      = false) :
    SafetyValidator.anyHardMatch
      (SafetyPipeline.evaluate t clinical proposed country_code raw prev).final_response
      = false := by
  simp only [SafetyPipeline.evaluate] at hb ⊢
  rw [(validate_not_safe_filtered_fallback proposed _ hb).1]
  exact modify_fallback_no_hard_match _ _ _

/-- C9 (amended) witness: a blocked proposed response ("take 500 mg") at LOW
risk round-trips with no hard-constraint match. -/
theorem C9_amended_blocked_roundtrip_witness :
    (SafetyPipeline.evaluate defaultRiskThresholds c9LowAssessment "take 500 mg".data
      "US" none none).response_valid = false ∧
    SafetyValidator.anyHardMatch
      (SafetyPipeline.evaluate defaultRiskThresholds c9LowAssessment "take 500 mg".data
        "US" none none).final_response = false :=
  ⟨by decide,
   C9_amended_blocked_roundtrip defaultRiskThresholds c9LowAssessment "take 500 mg".data
     "US" none none (by decide)⟩

/-- C10: a non-empty input that matches no hard-constraint pattern but whose
text is entirely consumed by the soft filters comes back unchanged:
`SafetyResult.__post_init__` restores the original text when filtering leaves
the empty string. -/
theorem C10_soft_filter_restores_original (s : Str)
    (h1 : s.isEmpty = false) (h2 : (pyStrip s).isEmpty = false)
    (h3 : SafetyValidator.anyHardMatch s = false)
    (h4 : (SafetyValidator.clean_response
      (SafetyValidator.FILTER_PATTERNS.foldl SafetyValidator.filterStep ([], s)).2).isEmpty
        = true) :
    (SafetyValidator.validate s false).filtered_response = s := by
  have hnil := hard_filterMap_eq_nil s SafetyValidator.HARD_CONSTRAINT_PATTERNS h3
  simp only [SafetyValidator.validate, hnil, h1, h2, mkSafetyResult]
  simp [h4]

/-- C10 witness: the single soft-filtered word "definitely" is returned
unstripped. -/
theorem C10_soft_filter_restores_original_witness :
    (SafetyValidator.validate "definitely".data false).filtered_response =
      "definitely".data :=
  C10_soft_filter_restores_original "definitely".data (by decide) (by decide)
    (by decide) (by decide)

end Hope
